import Mathlib

/-!
Verification development for the WorldEye event-intelligence pipeline
(`src/services/event-deduplication.ts`, `src/services/alert-rules.ts`,
`src/services/anomaly-detection.ts` and the intelligence-augmentation
coordinator).

Modelling conventions (JS → Lean):
* JS numbers are idealised as exact arithmetic: timestamps (`Date.getTime()`)
  as `ℤ` milliseconds, counts as `ℕ`, scores and other fractional values as
  `ℚ`, and the trigonometric haversine computation over `ℝ`.
* JS truthiness on numbers (`!x`) is modelled explicitly: an optional numeric
  field is falsy when it is `none` or `some 0`.
* Fallible JS constructs (`try`/`catch` around `new RegExp`) are modelled by
  `Option`: `none` stands for "the constructor threw".
* Module-level mutable state (the alert-rule `Map`, anomaly baselines) is
  passed explicitly; `Date.now()` is an explicit `now : ℤ` parameter.
-/

namespace WorldEye

/-- Modelled from the spec: a contributing source record `{name, tier, url}`
of a `ClusteredEvent` (the `@/types` declaration is not part of the
repository snapshot; spec §3 "Event"). -/
structure SourceRef where
  name : String
  tier : ℤ
  url : String
deriving DecidableEq

/-- Modelled from the spec: a raw news item (title, optional publish date)
held in a clustered event's `allItems`. -/
structure NewsItem where
  title : String
  pubDate : Option ℤ
deriving DecidableEq

/-- Modelled from the spec: the optional threat assessment of an event
(level, category, confidence). -/
structure Threat where
  level : String
  category : Option String
  confidence : Option ℚ
deriving DecidableEq

/-- Modelled from the spec: the optional velocity classification of an
event. -/
structure Velocity where
  level : String
deriving DecidableEq

/-- Modelled from the spec: the `ClusteredEvent` record consumed by the three
services (spec §3 "Event"); fields are exactly the ones the services read.
`lat`/`lon` are optional JS numbers (idealised as `ℚ`), timestamps are epoch
milliseconds. -/
structure ClusteredEvent where
  id : String
  primaryTitle : String
  primarySource : String
  topSources : List SourceRef
  sourceCount : ℕ
  lat : Option ℚ
  lon : Option ℚ
  firstSeen : ℤ
  lastUpdated : ℤ
  threat : Option Threat
  velocity : Option Velocity
  allItems : List NewsItem
deriving DecidableEq

/-- JS truthiness of an optional numeric field: `undefined` and `0` are
falsy, every other number is truthy. -/
def numTruthy : Option ℚ → Bool
  | none => false
  | some v => v != 0

/-- JS `String.prototype.toLowerCase()` restricted to the characters Lean's
`Char.toLower` handles (ASCII letters); titles and source names in this
code base are ASCII. (Defined over the character list so that concrete
instances evaluate.) -/
def jsToLower (s : String) : String := String.mk (s.data.map Char.toLower)

/-- One row update of the Levenshtein DP table of `levenshteinDistance`:
given the character `a = s1[i-1]`, the remaining characters of `s2` starting
at column `j`, the previous row starting at `d[i-1][j-1]`, and the value
`d[i][j-1]` just computed, produce `[d[i][j], ..., d[i][n]]` by the source
recurrence `d[i][j] = min(d[i-1][j] + 1, d[i][j-1] + 1, d[i-1][j-1] +
cost)`. -/
def levStep (a : Char) : List Char → List ℕ → ℕ → List ℕ
  | [], _, _ => []
  | b :: bs, prevRow, left =>
      match prevRow with
      | diag :: rest =>
          let up := rest.headD 0
          let cost := if a = b then 0 else 1
          let cur := min (up + 1) (min (left + 1) (diag + cost))
          cur :: levStep a bs rest cur
      | [] => []

/-- The row iteration of the Levenshtein DP: starting from row 0
(`d[0][j] = j`), fold each character of `s1` into the next row
(`d[i][0] = i`). -/
def levRows : List Char → List Char → List ℕ → ℕ → List ℕ
  | [], _, row, _ => row
  | a :: as, l2, row, i => levRows as l2 ((i + 1) :: levStep a l2 row (i + 1)) (i + 1)

/-- Source `levenshteinDistance(s1, s2)` (the same helper is duplicated in
`anomaly-detection.ts`): the bottom-right cell `d[len1][len2]` of the DP
table. -/
def levenshteinDistance (s1 s2 : String) : ℕ :=
  (levRows s1.data s2.data (List.range (s2.data.length + 1)) 0).getLastD 0

/-- Source `calculateStringSimilarity`: lower-case both strings, return 1 on
equality, else `1 - distance / maxLen`. -/
noncomputable def calculateStringSimilarity (str1 str2 : String) : ℝ :=
  let s1 := jsToLower str1
  let s2 := jsToLower str2
  if s1 = s2 then 1
  else 1 - (levenshteinDistance s1 s2 : ℝ) / (max s1.length s2.length : ℕ)

/-- Source `calculateSourceSimilarity`: Jaccard similarity of the two sets of
lower-cased source names (0 if either input list is empty). JS `Set`
deduplication is modelled by `List.dedup`; only the resulting cardinalities
are used. -/
noncomputable def calculateSourceSimilarity (sources1 sources2 : List SourceRef) : ℝ :=
  if sources1.length = 0 ∨ sources2.length = 0 then 0
  else
    let set1 := (sources1.map (fun s => jsToLower s.name)).dedup
    let set2 := (sources2.map (fun s => jsToLower s.name)).dedup
    let inter := set1.filter (fun x => x ∈ set2)
    let union := (set1 ++ set2).dedup
    if union.length = 0 then 0 else (inter.length : ℝ) / (union.length : ℝ)

/-- JS `Math.atan2(y, x)` over the reals (no signed zero or NaN inputs arise
in this development). -/
noncomputable def jsAtan2 (y x : ℝ) : ℝ :=
  if 0 < x then Real.arctan (y / x)
  else if x < 0 ∧ 0 ≤ y then Real.arctan (y / x) + Real.pi
  else if x < 0 ∧ y < 0 then Real.arctan (y / x) - Real.pi
  else if x = 0 ∧ 0 < y then Real.pi / 2
  else if x = 0 ∧ y < 0 then -(Real.pi / 2)
  else 0

/-- Source `calculateHaversineDistance` (also `haversineDistance` in
`anomaly-detection.ts`): great-circle distance in km, Earth radius 6371. -/
noncomputable def calculateHaversineDistance (lat1 lon1 lat2 lon2 : ℚ) : ℝ :=
  let R : ℝ := 6371
  let dLat : ℝ := ((lat2 : ℝ) - (lat1 : ℝ)) * Real.pi / 180
  let dLon : ℝ := ((lon2 : ℝ) - (lon1 : ℝ)) * Real.pi / 180
  let a : ℝ :=
    Real.sin (dLat / 2) * Real.sin (dLat / 2) +
      Real.cos ((lat1 : ℝ) * Real.pi / 180) * Real.cos ((lat2 : ℝ) * Real.pi / 180) *
        Real.sin (dLon / 2) * Real.sin (dLon / 2)
  let c := 2 * jsAtan2 (Real.sqrt a) (Real.sqrt (1 - a))
  R * c

/-- Source `calculateLocationSimilarity`: the guard
`!event1.lat || !event1.lon || !event2.lat || !event2.lon` returns 0; note
that in JS a coordinate equal to `0` is falsy and also takes this branch.
Otherwise `max(0, 1 - distance / 50)`. -/
noncomputable def calculateLocationSimilarity (event1 event2 : ClusteredEvent) : ℝ :=
  match event1.lat, event1.lon, event2.lat, event2.lon with
  | some la1, some lo1, some la2, some lo2 =>
      if la1 = 0 ∨ lo1 = 0 ∨ la2 = 0 ∨ lo2 = 0 then 0
      else max 0 (1 - calculateHaversineDistance la1 lo1 la2 lo2 / 50)
  | _, _, _, _ => 0

/-- Source `DeduplicationScore` (the constant `metrics` record of method
names is omitted: it is write-only metadata). -/
structure DeduplicationScore where
  titleSimilarity : ℝ
  sourceSimilarity : ℝ
  locationSimilarity : ℝ
  timeSimilarity : ℝ
  overallScore : ℝ

/-- Engine constant `SIMILARITY_THRESHOLD = 0.75`. -/
def SIMILARITY_THRESHOLD : ℝ := 0.75

/-- Engine constant `TIME_WINDOW_MS` = 24 hours in milliseconds. -/
def TIME_WINDOW_MS : ℤ := 24 * 60 * 60 * 1000

/-- Source `calculateSimilarityScore`: hard zero score when the `firstSeen`
timestamps differ by more than 24h, otherwise the 0.4/0.2/0.2/0.2 weighted
average of the four sub-similarities. -/
noncomputable def calculateSimilarityScore (event1 event2 : ClusteredEvent) : DeduplicationScore :=
  let timeDiff : ℤ := |event1.firstSeen - event2.firstSeen|
  if TIME_WINDOW_MS < timeDiff then
    { titleSimilarity := 0, sourceSimilarity := 0, locationSimilarity := 0,
      timeSimilarity := 0, overallScore := 0 }
  else
    let titleSimilarity := calculateStringSimilarity event1.primaryTitle event2.primaryTitle
    let sourceSimilarity := calculateSourceSimilarity event1.topSources event2.topSources
    let locationSimilarity := calculateLocationSimilarity event1 event2
    let timeSimilarity : ℝ := 1 - min ((timeDiff : ℝ) / (TIME_WINDOW_MS : ℝ)) 1
    { titleSimilarity := titleSimilarity, sourceSimilarity := sourceSimilarity,
      locationSimilarity := locationSimilarity, timeSimilarity := timeSimilarity,
      overallScore :=
        titleSimilarity * 0.4 + sourceSimilarity * 0.2 +
          locationSimilarity * 0.2 + timeSimilarity * 0.2 }

/-- Source `DuplicateGroup` restricted to the fields that are read again
(`id`, `mergedAt` and `isMerged` are only used for statistics). -/
structure DuplicateGroup where
  primaryEvent : ClusteredEvent
  duplicates : List (ClusteredEvent × DeduplicationScore)

/-- Inner `j`-loop of `deduplicateEvents`: scan the events after the primary,
skip already-processed ids, and move every event scoring at least the
threshold into the primary's duplicate list while marking its id processed.
Returns the duplicates together with the grown processed set. -/
noncomputable def collectDuplicates (primary : ClusteredEvent) :
    List ClusteredEvent → List String → List (ClusteredEvent × DeduplicationScore) × List String
  | [], processed => ([], processed)
  | e :: rest, processed =>
      if e.id ∈ processed then collectDuplicates primary rest processed
      else
        let score := calculateSimilarityScore primary e
        if SIMILARITY_THRESHOLD ≤ score.overallScore then
          let r := collectDuplicates primary rest (e.id :: processed)
          ((e, score) :: r.1, r.2)
        else collectDuplicates primary rest processed

/-- Outer `i`-loop of `deduplicateEvents`: each not-yet-processed event in
input order becomes a group primary; its id is marked processed after its
inner scan (matching the JS order of `processedIds.add` calls). -/
noncomputable def dedupGroups : List ClusteredEvent → List String → List DuplicateGroup
  | [], _ => []
  | e :: rest, processed =>
      if e.id ∈ processed then dedupGroups rest processed
      else
        let c := collectDuplicates e rest processed
        { primaryEvent := e, duplicates := c.1 } :: dedupGroups rest (e.id :: c.2)

/-- JS `Map.set` on an association list: overwrite the value at an existing
key in place, otherwise append the new entry. -/
def setAssoc : List (String × SourceRef) → String → SourceRef → List (String × SourceRef)
  | [], k, v => [(k, v)]
  | (k0, v0) :: t, k, v =>
      if k0 = k then (k, v) :: t else (k0, v0) :: setAssoc t k v

/-- Stable insertion: the new element is placed before the first
already-placed element it strictly precedes, hence after every equal one. -/
def insertStable {α : Type} (lt : α → α → Bool) (a : α) : List α → List α
  | [] => [a]
  | b :: t => if lt a b then a :: b :: t else b :: insertStable lt a t

/-- JS `Array.prototype.sort(comparator)` for a consistent numeric-key
comparator: the stable ascending sort (guaranteed by the ES spec), modelled
as left-to-right stable insertion; `lt a b` means the comparator orders `a`
strictly before `b`. -/
def jsSortBy {α : Type} (lt : α → α → Bool) (l : List α) : List α :=
  l.foldl (fun acc a => insertStable lt a acc) []

/-- Sort key `b.pubDate?.getTime() || 0` used when merging `allItems`. -/
def pubDateKey (n : NewsItem) : ℤ := n.pubDate.getD 0

/-- Source `mergeEventGroup`: singleton groups return the primary unchanged;
otherwise union the `allItems` (sorted newest first), union the sources
keyed by lower-cased name (tier-ascending, top 5 kept, `sourceCount` = full
union size), take the max `lastUpdated`, and adopt the first duplicate's
coordinates when the primary's `lat` and `lon` are both falsy (JS: absent or
0) and some duplicate has both coordinates truthy. -/
def mergeEventGroup (group : DuplicateGroup) : ClusteredEvent :=
  if group.duplicates.length = 0 then group.primaryEvent
  else
    let primary := group.primaryEvent
    let allItems0 := primary.allItems ++ group.duplicates.flatMap (fun d => d.1.allItems)
    let sourceSet0 := primary.topSources.foldl (fun m s => setAssoc m (jsToLower s.name) s) []
    let sourceSet := group.duplicates.foldl
      (fun m d => d.1.topSources.foldl (fun m s => setAssoc m (jsToLower s.name) s) m) sourceSet0
    let allItems := jsSortBy (fun a b => pubDateKey b < pubDateKey a) allItems0
    let topSources := (jsSortBy (fun a b => a.tier < b.tier) (sourceSet.map Prod.snd)).take 5
    let lastUpdated := group.duplicates.foldl (fun m d => max m d.1.lastUpdated) primary.lastUpdated
    let base : ClusteredEvent :=
      { primary with
        allItems := allItems
        topSources := topSources
        sourceCount := sourceSet.length
        lastUpdated := lastUpdated }
    if !numTruthy base.lat && !numTruthy base.lon
        && group.duplicates.any (fun d => numTruthy d.1.lat && numTruthy d.1.lon) then
      match group.duplicates.find? (fun d => numTruthy d.1.lat && numTruthy d.1.lon) with
      | some locEvent => { base with lat := locEvent.1.lat, lon := locEvent.1.lon }
      | none => base
    else base

/-- Source `deduplicateEvents`: batches shorter than 2 are returned unchanged
(only statistics are updated, which are not modelled); otherwise every group
of the single left-to-right pass is merged. The statistics bookkeeping and
its persistence are side effects that do not influence the returned list and
are omitted. -/
noncomputable def deduplicateEvents (events : List ClusteredEvent) : List ClusteredEvent :=
  if events.length < 2 then events
  else (dedupGroups events []).map mergeEventGroup

/-- The events represented by a duplicate group: its primary followed by its
merged duplicates. -/
def groupMembers (g : DuplicateGroup) : List ClusteredEvent :=
  g.primaryEvent :: g.duplicates.map (fun d => d.1)

/-! Alert rule engine (`src/services/alert-rules.ts`). Persistence
(`saveRulesToStorage`) is fire-and-forget and does not influence the
in-memory `cachedRules` map, which is modelled as an explicit association
list in JS `Map` insertion order. -/

/-- Source `AlertRuleOperator`. -/
inductive AlertRuleOperator where
  | contains
  | equals
  | startsWith
  | endsWith
  | regex
  | greaterThan
  | lessThan
deriving DecidableEq

/-- Source `AlertRuleConditionType`. -/
inductive AlertRuleConditionType where
  | title
  | source
  | threatLevel
  | category
  | sourceCount
  | velocity
  | keyword
deriving DecidableEq

/-- A condition's `value: string | number`. -/
inductive CondValue where
  | str (s : String)
  | num (q : ℚ)
deriving DecidableEq

/-- JS `String(value)`. For the string case this is the identity; the JS
decimal rendering of a number is approximated by `ℚ`'s `toString` (no claim
depends on comparing a numeric value as a string). -/
def CondValue.toStr : CondValue → String
  | .str s => s
  | .num q => toString q

/-- JS `Number(value)`. A numeric value converts to itself; the JS parse of
a string is not modelled and is treated as `NaN` (`none`), under which every
numeric comparison is false (no claim depends on numeric-string values). -/
def CondValue.toNum : CondValue → Option ℚ
  | .str _ => none
  | .num q => some q

/-- Source `AlertRuleCondition`. -/
structure AlertRuleCondition where
  type : AlertRuleConditionType
  operator : AlertRuleOperator
  value : CondValue
  caseSensitive : Option Bool
deriving DecidableEq

/-- Source condition combination logic `'ALL' | 'ANY'`. -/
inductive CondLogic where
  | ALL
  | ANY
deriving DecidableEq

/-- Source `AlertRule.actions`. -/
structure RuleActions where
  notify : Bool
  extractToPanel : Option String
  highlightColor : Option String
deriving DecidableEq

/-- Source `AlertRule`. -/
structure AlertRule where
  id : String
  name : String
  description : Option String
  enabled : Bool
  conditions : List AlertRuleCondition
  conditionLogic : CondLogic
  actions : RuleActions
  createdAt : ℤ
  updatedAt : ℤ
  lastTriggered : Option ℤ
  triggerCount : ℕ
deriving DecidableEq

/-- The in-memory `cachedRules: Map<string, AlertRule>` in insertion order. -/
def AlertState := List (String × AlertRule)

/-- JS `Map.get`. -/
def mapGet : AlertState → String → Option AlertRule
  | [], _ => none
  | (k0, v0) :: t, k => if k0 = k then some v0 else mapGet t k

/-- JS `Map.set`: overwrite in place if the key exists, else append. -/
def mapSet : AlertState → String → AlertRule → AlertState
  | [], k, v => [(k, v)]
  | (k0, v0) :: t, k, v => if k0 = k then (k, v) :: t else (k0, v0) :: mapSet t k v

/-- JS `Map.delete` (removing the entry for the key). -/
def mapDelete : AlertState → String → AlertState
  | [], _ => []
  | (k0, v0) :: t, k => if k0 = k then t else (k0, v0) :: mapDelete t k

/-- Substring test (JS `String.prototype.includes`) on character lists. -/
def listIncludes (needle : List Char) : List Char → Bool
  | [] => needle.isPrefixOf []
  | c :: t => needle.isPrefixOf (c :: t) || listIncludes needle t

/-- JS `haystack.includes(needle)`. -/
def strIncludes (haystack needle : String) : Bool :=
  listIncludes needle.data haystack.data

/-- Abstract interface to the JS `RegExp` builtin: `rx pattern insensitive
input` is `none` when `new RegExp(pattern, flags)` throws (invalid pattern)
and `some b` when the compiled regex tests `input` with outcome `b`. The
`insensitive` flag records whether the `'i'` flag was passed. -/
def RegexImpl := String → Bool → String → Option Bool

/-- Source `evaluateStringCondition`: case-folding per `caseSensitive ??
false`; the `regex` arm compiles the (possibly lower-cased) pattern with the
`'i'` flag when not case-sensitive and tests the ORIGINAL value, returning
`false` when the constructor throws (`try`/`catch`). Numeric operators under
this string evaluator hit `default: return false`. -/
def evaluateStringCondition (rx : RegexImpl) (value : String)
    (operator : AlertRuleOperator) (compareValue : String)
    (caseSensitive : Option Bool) : Bool :=
  let cs := caseSensitive.getD false
  let val := if cs then value else jsToLower value
  let comp := if cs then compareValue else jsToLower compareValue
  match operator with
  | .contains => strIncludes val comp
  | .equals => val == comp
  | .startsWith => comp.data.isPrefixOf val.data
  | .endsWith => comp.data.isSuffixOf val.data
  | .regex =>
      match rx comp (!cs) value with
      | none => false
      | some b => b
  | _ => false

/-- Source `evaluateNumericCondition`; `none` models a `NaN` comparand, for
which every JS comparison is false. String operators hit `default: return
false`. -/
def evaluateNumericCondition (value : ℚ) (operator : AlertRuleOperator)
    (compareValue : Option ℚ) : Bool :=
  match compareValue with
  | none => false
  | some c =>
      match operator with
      | .equals => value == c
      | .greaterThan => c < value
      | .lessThan => value < c
      | _ => false

/-- Source `evaluateCondition`: dispatch on the condition type. `threatLevel`
and `category` are strict JS `===` against the condition value (false when
the value is a number or the field is absent); `velocity` first requires a
truthy `event.velocity` and passes no `caseSensitive` argument; `keyword`
ignores the operator and substring-matches the title or any raw item title
case-insensitively. -/
def evaluateCondition (rx : RegexImpl) (event : ClusteredEvent)
    (condition : AlertRuleCondition) : Bool :=
  match condition.type with
  | .title =>
      evaluateStringCondition rx event.primaryTitle condition.operator
        condition.value.toStr condition.caseSensitive
  | .source =>
      evaluateStringCondition rx event.primarySource condition.operator
        condition.value.toStr condition.caseSensitive
  | .threatLevel =>
      match event.threat, condition.value with
      | some t, .str s => t.level == s
      | _, _ => false
  | .category =>
      match event.threat, condition.value with
      | some t, .str s => t.category == some s
      | _, _ => false
  | .sourceCount =>
      evaluateNumericCondition (event.sourceCount : ℚ) condition.operator
        condition.value.toNum
  | .velocity =>
      match event.velocity with
      | some v => evaluateStringCondition rx v.level condition.operator
          condition.value.toStr none
      | none => false
  | .keyword =>
      strIncludes (jsToLower event.primaryTitle) (jsToLower condition.value.toStr) ||
        event.allItems.any (fun item =>
          strIncludes (jsToLower item.title) (jsToLower condition.value.toStr))

/-- Source `evaluateEvent`: combine the per-condition results under the
rule's logic (`ALL` = every, `ANY` = some). -/
def evaluateEvent (rx : RegexImpl) (event : ClusteredEvent) (rule : AlertRule) : Bool :=
  let results := rule.conditions.map (evaluateCondition rx event)
  match rule.conditionLogic with
  | .ALL => results.all (fun m => m)
  | .ANY => results.any (fun m => m)

/-- Source `evaluateEventAgainstRules`: iterate the map's values, skip
disabled rules, return those matching the event. A pure read of the state. -/
def evaluateEventAgainstRules (rx : RegexImpl) (s : AlertState)
    (event : ClusteredEvent) : List AlertRule :=
  (s.map (fun p => p.2)).filter (fun rule => rule.enabled && evaluateEvent rx event rule)

/-- The updatable fields of `updateAlertRule` (TS
`Partial<Omit<AlertRule, 'id' | 'createdAt' | 'triggerCount'>>`): `none`
means the field is absent from the update object. An explicitly-undefined
optional field is `some none`. `updatedAt` is excluded because the source
overwrites it with `new Date()` after the spread. -/
structure UpdateFields where
  name : Option String
  description : Option (Option String)
  enabled : Option Bool
  conditions : Option (List AlertRuleCondition)
  conditionLogic : Option CondLogic
  actions : Option RuleActions
  lastTriggered : Option (Option ℤ)
deriving DecidableEq

/-- Source `createAlertRule`: the generated id (from `Date.now()` and
`Math.random()`) is an explicit parameter; the new rule starts enabled with
`triggerCount = 0`. -/
def createAlertRule (s : AlertState) (id name : String)
    (conditions : List AlertRuleCondition) (conditionLogic : CondLogic)
    (description : Option String) (highlightColor : Option String) (now : ℤ) : AlertState :=
  mapSet s id
    { id := id, name := name, description := description, enabled := true,
      conditions := conditions, conditionLogic := conditionLogic,
      actions := { notify := true, extractToPanel := none, highlightColor := highlightColor },
      createdAt := now, updatedAt := now, lastTriggered := none, triggerCount := 0 }

/-- Source `updateAlertRule`: spread `{...rule, ...updates, updatedAt: now}`
for a known id, no-op otherwise (the source also returns the updated rule or
null, which callers in scope ignore). `id`, `createdAt` and `triggerCount`
are not updatable. -/
def updateAlertRule (s : AlertState) (id : String) (u : UpdateFields) (now : ℤ) : AlertState :=
  match mapGet s id with
  | none => s
  | some rule =>
      mapSet s id
        { rule with
          name := u.name.getD rule.name
          description := u.description.getD rule.description
          enabled := u.enabled.getD rule.enabled
          conditions := u.conditions.getD rule.conditions
          conditionLogic := u.conditionLogic.getD rule.conditionLogic
          actions := u.actions.getD rule.actions
          lastTriggered := u.lastTriggered.getD rule.lastTriggered
          updatedAt := now }

/-- Source `deleteAlertRule` (the returned deletion flag is ignored). -/
def deleteAlertRule (s : AlertState) (id : String) : AlertState := mapDelete s id

/-- Source `toggleAlertRule`: delegates to `updateAlertRule` with only
`enabled` set. -/
def toggleAlertRule (s : AlertState) (id : String) (enabled : Bool) (now : ℤ) : AlertState :=
  updateAlertRule s id
    { name := none, description := none, enabled := some enabled, conditions := none,
      conditionLogic := none, actions := none, lastTriggered := none } now

/-- Source `recordAlertTrigger`: for a known id set `lastTriggered = now` and
increment `triggerCount` by one; unknown ids are a no-op. -/
def recordAlertTrigger (s : AlertState) (id : String) (now : ℤ) : AlertState :=
  match mapGet s id with
  | none => s
  | some rule =>
      mapSet s id { rule with lastTriggered := some now, triggerCount := rule.triggerCount + 1 }

/-- Source `importRules`: each parsed entry is paired with its regenerated
fresh id; an entry is kept when `rule.id && rule.name && rule.conditions` is
truthy (for the typed model: id and name are non-empty strings; an array is
always truthy, so the `conditions` conjunct cannot fail). The kept rule is
the parsed one with its id replaced. -/
def importRules (s : AlertState) (entries : List (String × AlertRule)) : AlertState :=
  entries.foldl
    (fun st e =>
      if e.2.id ≠ "" ∧ e.2.name ≠ "" then mapSet st e.1 { e.2 with id := e.1 } else st)
    s

/-- One engine operation, with all nondeterministic inputs (generated ids,
clock readings, parsed import payloads, evaluated events) made explicit. -/
inductive EngineOp where
  | create (id name : String) (conditions : List AlertRuleCondition)
      (logic : CondLogic) (description : Option String)
      (highlightColor : Option String) (now : ℤ)
  | update (id : String) (u : UpdateFields) (now : ℤ)
  | toggle (id : String) (enabled : Bool) (now : ℤ)
  | deleteRule (id : String)
  | evalEvent (event : ClusteredEvent)
  | recordTrigger (id : String) (now : ℤ)
  | importOps (entries : List (String × AlertRule))

/-- State transition of one engine operation (`evaluate` is a pure read and
leaves the state unchanged). -/
def stepOp (s : AlertState) : EngineOp → AlertState
  | .create id name conditions logic description highlightColor now =>
      createAlertRule s id name conditions logic description highlightColor now
  | .update id u now => updateAlertRule s id u now
  | .toggle id enabled now => toggleAlertRule s id enabled now
  | .deleteRule id => deleteAlertRule s id
  | .evalEvent _ => s
  | .recordTrigger id now => recordAlertTrigger s id now
  | .importOps entries => importRules s entries

/-- Run a sequence of engine operations. -/
def runOps (s : AlertState) (ops : List EngineOp) : AlertState := ops.foldl stepOp s

/-- An operation is benign for the tracked id `i` when it neither deletes
`i` nor installs a freshly-generated id equal to `i` (the source generates
unique ids for `create` and regenerates ids on import). -/
def opSafe (i : String) : EngineOp → Bool
  | .create id _ _ _ _ _ _ => id != i
  | .deleteRule id => id != i
  | .importOps entries => entries.all (fun e => e.1 != i)
  | _ => true

/-- The number of `recordTrigger` operations aimed at id `i`. -/
def countRT (i : String) (ops : List EngineOp) : ℕ :=
  ops.countP (fun op =>
    match op with
    | .recordTrigger j _ => j == i
    | _ => false)

/-! Anomaly detection engine (`src/services/anomaly-detection.ts`). The
module-level `baselines` map is an explicit association-list parameter and
`Date.now()` an explicit `now`. The `eventHistory` / `anomalyHistory`
bookkeeping and the baseline persistence do not influence the analysis
result of a call and are omitted; per-anomaly `metadata` records are
write-only explanation data and are omitted from `AnomalyScoreR`. -/

/-- Source `AnomalyType`. -/
inductive AnomalyType where
  | velocity_spike
  | geographic_convergence
  | threat_escalation
  | source_concentration
  | temporal_anomaly
  | sentiment_shift
  | cluster_explosion
deriving DecidableEq

/-- Source `AnomalyScore` (without the free-form `metadata` record). -/
structure AnomalyScoreR where
  type : AnomalyType
  score : ℚ
  likelihood : ℚ
  baseline : ℚ
  current : ℚ
  deviation : ℚ
deriving DecidableEq

/-- Source risk classification values. -/
inductive RiskLevel where
  | low
  | medium
  | high
  | critical
deriving DecidableEq

/-- Source `EventAnomalies`. -/
structure EventAnomalies where
  eventId : String
  timestamp : ℤ
  anomalies : List AnomalyScoreR
  overallAnomalyScore : ℚ
  isAnomalous : Bool
  riskLevel : RiskLevel
  interpretation : String
deriving DecidableEq

/-- Source `AnomalyBaseline`. -/
structure AnomalyBaseline where
  metric : String
  mean : ℚ
  stdDev : ℚ
  minV : ℚ
  maxV : ℚ
  samples : ℕ
  lastUpdated : ℤ
  windowSizeHours : ℚ
deriving DecidableEq

/-- Source `AnomalyModelConfig`. -/
structure AnomalyModelConfig where
  anomalyThreshold : ℚ
  minSamplesForBaseline : ℕ
  baselineWindowHours : ℚ
  velocitySpikeMultiplier : ℚ
  convergenceRadiusKm : ℚ
  minEventsForConvergence : ℕ
  threatEscalationThreshold : ℚ
  enablePredictiveMode : Bool
  predictionWindowHours : ℚ
deriving DecidableEq

/-- Source `DEFAULT_CONFIG`. -/
def DEFAULT_CONFIG : AnomalyModelConfig :=
  { anomalyThreshold := 0.7, minSamplesForBaseline := 30, baselineWindowHours := 168,
    velocitySpikeMultiplier := 2.5, convergenceRadiusKm := 100, minEventsForConvergence := 3,
    threatEscalationThreshold := 1.5, enablePredictiveMode := true, predictionWindowHours := 24 }

/-- The baselines map. -/
def BaselineMap := List (String × AnomalyBaseline)

/-- Source `getOrCreateBaseline`: look the metric up, else seed a baseline
with the default mean, `stdDev` 30% of it, `max` three times it. (The lazy
`Map.set` insertion only matters for later calls and is reflected by
threading no claim depends on; each call here is read-only.) -/
def getOrCreateBaseline (baselines : BaselineMap) (cfg : AnomalyModelConfig) (now : ℤ)
    (metric : String) (defaultMean : ℚ) : AnomalyBaseline :=
  match baselines.find? (fun p => p.1 == metric) with
  | some p => p.2
  | none =>
      { metric := metric, mean := defaultMean, stdDev := defaultMean * 0.3, minV := 0,
        maxV := defaultMean * 3, samples := 0, lastUpdated := now,
        windowSizeHours := cfg.baselineWindowHours }

/-- Source `detectVelocityAnomaly`: count same-hour events whose title is
within Levenshtein distance 10; base severity from the velocity label
(`spike` 0.95 / `elevated` 0.6 / else 0.1, with an empty label falsy in
`event.velocity?.level || 'normal'`); only fires when severity > 0.5. -/
def detectVelocityAnomaly (baselines : BaselineMap) (cfg : AnomalyModelConfig) (now : ℤ)
    (event : ClusteredEvent) (recentEvents : List ClusteredEvent) : Option AnomalyScoreR :=
  let oneHourAgo := now - 60 * 60 * 1000
  let similarEvents := recentEvents.filter (fun e =>
    decide (oneHourAgo < e.firstSeen) &&
      decide (levenshteinDistance e.primaryTitle event.primaryTitle < 10))
  let velocity :=
    match event.velocity with
    | some v => if v.level = "" then "normal" else v.level
    | none => "normal"
  let velocityScore : ℚ := if velocity = "spike" then 0.95
    else if velocity = "elevated" then 0.6 else 0.1
  if 0.5 < velocityScore then
    let baseline := getOrCreateBaseline baselines cfg now "velocity_hourly" 5
    some
      { type := .velocity_spike,
        score := min 1 (velocityScore * ((similarEvents.length : ℚ) / max baseline.mean 1)),
        likelihood := velocityScore, baseline := baseline.mean,
        current := (similarEvents.length : ℚ),
        deviation := ((similarEvents.length : ℚ) - baseline.mean) / max baseline.stdDev 1 }
  else none

/-- Source `detectGeographicConvergence`: requires truthy coordinates (a 0
coordinate is falsy in `!event.lat || !event.lon`); counts recent events
with truthy coordinates within the convergence radius plus the event itself;
fires at the configured minimum count. -/
noncomputable def detectGeographicConvergence (baselines : BaselineMap)
    (cfg : AnomalyModelConfig) (now : ℤ) (event : ClusteredEvent)
    (recentEvents : List ClusteredEvent) : Option AnomalyScoreR :=
  match event.lat, event.lon with
  | some la, some lo =>
      if la = 0 ∨ lo = 0 then none
      else
        let convergingEvents := recentEvents.filter (fun e =>
          match e.lat, e.lon with
          | some la2, some lo2 =>
              decide (la2 ≠ 0) && decide (lo2 ≠ 0) &&
                decide (calculateHaversineDistance la lo la2 lo2 < (cfg.convergenceRadiusKm : ℝ))
          | _, _ => false)
        let convergenceCount := convergingEvents.length + 1
        if cfg.minEventsForConvergence ≤ convergenceCount then
          let baseline := getOrCreateBaseline baselines cfg now "geo_convergence" 1
          some
            { type := .geographic_convergence,
              score := min 1 ((convergenceCount : ℚ) / max (baseline.mean * 5) 5),
              likelihood := min 1 ((convergenceCount : ℚ) / 10),
              baseline := baseline.mean, current := (convergenceCount : ℚ),
              deviation := ((convergenceCount : ℚ) - baseline.mean) / max baseline.stdDev 1 }
        else none
  | _, _ => none

/-- Source threat priority table (`threatPriority[level] || 0`: unknown
levels map to 0). -/
def threatPriority (level : String) : ℚ :=
  if level = "critical" then 5
  else if level = "high" then 4
  else if level = "medium" then 3
  else if level = "low" then 2
  else if level = "info" then 1
  else 0

/-- The level string `e.threat?.level || 'info'` (an absent threat or empty
level falls back to `'info'`). -/
def threatLevelOrInfo (e : ClusteredEvent) : String :=
  match e.threat with
  | some t => if t.level = "" then "info" else t.level
  | none => "info"

/-- Source `detectThreatEscalation`: needs a truthy threat level; compares
the current priority with the mean priority of similar-titled events of the
last 24h (at least 2 required); fires when the ratio (against the mean
clamped below at 0.5) exceeds the configured threshold. -/
def detectThreatEscalation (cfg : AnomalyModelConfig) (now : ℤ) (event : ClusteredEvent)
    (recentEvents : List ClusteredEvent) : Option AnomalyScoreR :=
  match event.threat with
  | none => none
  | some t =>
      if t.level = "" then none
      else
        let currentThreat := threatPriority t.level
        let pastTwentyFourHours := now - 24 * 60 * 60 * 1000
        let recentThreatEvents := recentEvents.filter (fun e =>
          decide (pastTwentyFourHours < e.firstSeen) &&
            decide (levenshteinDistance e.primaryTitle event.primaryTitle < 15))
        if recentThreatEvents.length < 2 then none
        else
          let avgPastThreat :=
            ((recentThreatEvents.map (fun e => threatPriority (threatLevelOrInfo e))).sum) /
              (recentThreatEvents.length : ℚ)
          let escalation := currentThreat / max avgPastThreat 0.5
          if cfg.threatEscalationThreshold < escalation then
            some
              { type := .threat_escalation, score := min 1 ((escalation - 1) / 2),
                likelihood := 0.8, baseline := avgPastThreat, current := currentThreat,
                deviation := escalation - 1 }
          else none

/-- Source `detectSourceConcentration`: `Math.max(...topSources.map(() => 1))`
is 1 for a non-empty source list; for an empty list `Math.max()` is
`-Infinity`, the concentration is `-Infinity` and the `> 0.5` test fails, so
the empty case is modelled directly as not firing. The `baseline` and
`deviation` fields divide by `sourceCount` without the `Math.max` clamp
(`ℚ` division by zero yields 0 where JS yields `Infinity`; both are
explanation-only fields). -/
def detectSourceConcentration (event : ClusteredEvent) : Option AnomalyScoreR :=
  match (event.topSources.map (fun _ => (1 : ℚ))).max? with
  | none => none
  | some topSourceCount =>
      let concentration := topSourceCount / max (event.sourceCount : ℚ) 1
      if 0.5 < concentration then
        some
          { type := .source_concentration, score := concentration - 0.5, likelihood := 0.7,
            baseline := 1 / (event.sourceCount : ℚ), current := concentration,
            deviation := concentration - 1 / (event.sourceCount : ℚ) }
      else none

/-- Source `detectTemporalAnomaly`: fires when the time since the last update
(`lastUpdated?.getTime() || firstSeen`, so an update at epoch 0 falls back to
`firstSeen`) is below a quarter of the expected 1h interval. In JS an
elapsed time of exactly 0 gives `3600000/0 = Infinity`, capped to 1 by
`Math.min`; `ℚ` division by zero gives 0 instead — no claim evaluates that
point. -/
def detectTemporalAnomaly (now : ℤ) (event : ClusteredEvent) : Option AnomalyScoreR :=
  let timeSinceLastUpdate : ℤ :=
    now - (if event.lastUpdated ≠ 0 then event.lastUpdated else event.firstSeen)
  let expectedUpdateInterval : ℚ := 3600000
  if timeSinceLastUpdate < 900000 then
    some
      { type := .temporal_anomaly,
        score := min 1 (expectedUpdateInterval / ((timeSinceLastUpdate : ℚ) * 4)),
        likelihood := 0.6, baseline := expectedUpdateInterval,
        current := (timeSinceLastUpdate : ℚ),
        deviation := 1 - (timeSinceLastUpdate : ℚ) / expectedUpdateInterval }
  else none

/-- The confidence `e.threat?.confidence || 0.5` (absent threat, absent
confidence, or confidence 0 all fall back to 0.5). -/
def confidenceOrHalf (e : ClusteredEvent) : ℚ :=
  match e.threat with
  | some t =>
      match t.confidence with
      | some c => if c = 0 then 0.5 else c
      | none => 0.5
  | none => 0.5

/-- Source `detectSentimentShift`: past events are those with a threat
object and title similarity `1 - distance/100 > 0.7` (at least 2 required);
fires when the absolute confidence shift exceeds 0.3. -/
def detectSentimentShift (event : ClusteredEvent) (recentEvents : List ClusteredEvent) :
    Option AnomalyScoreR :=
  let pastEvents := recentEvents.filter (fun e =>
    e.threat.isSome &&
      decide ((0.7 : ℚ) < 1 - (levenshteinDistance e.primaryTitle event.primaryTitle : ℚ) / 100))
  if pastEvents.length < 2 then none
  else
    let sentiments := pastEvents.map confidenceOrHalf
    let avgSentiment := sentiments.sum / (sentiments.length : ℚ)
    let currentSentiment := confidenceOrHalf event
    let shift := |currentSentiment - avgSentiment|
    if 0.3 < shift then
      some
        { type := .sentiment_shift, score := shift, likelihood := 0.7,
          baseline := avgSentiment, current := currentSentiment, deviation := shift }
    else none

/-- Source `detectClusterExplosion`: ratio of last-hour events to the
per-hour average of the last six hours (clamped below at 1); fires above
ratio 2. -/
def detectClusterExplosion (now : ℤ) (recentEvents : List ClusteredEvent) :
    Option AnomalyScoreR :=
  let lastHour := now - 60 * 60 * 1000
  let eventsLastHour := recentEvents.filter (fun e => decide (lastHour < e.firstSeen))
  let lastSixHours := now - 6 * 60 * 60 * 1000
  let eventsSixHours := recentEvents.filter (fun e => decide (lastSixHours < e.firstSeen))
  let explosionRatio :=
    (eventsLastHour.length : ℚ) / max ((eventsSixHours.length : ℚ) / 6) 1
  if 2 < explosionRatio then
    some
      { type := .cluster_explosion, score := min 1 ((explosionRatio - 1) / 3),
        likelihood := 0.75, baseline := (eventsSixHours.length : ℚ) / 6,
        current := (eventsLastHour.length : ℚ), deviation := explosionRatio - 1 }
  else none

/-- JS `parseFloat(x.toFixed(3))`: rounding to the nearest thousandth
(`toFixed` rounds ties away from zero; all values rounded in this
development are nonnegative, where this agrees with `round`). -/
def roundTo3 (q : ℚ) : ℚ := ((round (q * 1000) : ℤ) : ℚ) / 1000

/-- The fired detectors of one `analyzeEventAnomalies` call, in the source's
push order. -/
noncomputable def firedAnomalies (baselines : BaselineMap) (cfg : AnomalyModelConfig)
    (now : ℤ) (event : ClusteredEvent) (recentEvents : List ClusteredEvent) :
    List AnomalyScoreR :=
  [detectVelocityAnomaly baselines cfg now event recentEvents,
    detectGeographicConvergence baselines cfg now event recentEvents,
    detectThreatEscalation cfg now event recentEvents,
    detectSourceConcentration event,
    detectTemporalAnomaly now event,
    detectSentimentShift event recentEvents,
    detectClusterExplosion now recentEvents].reduceOption

/-- JS `toFixed(0)` rendering used in interpretation strings (ties differ
from JS only at exact halves of negative values, which do not occur). -/
def fmtFixed0 (q : ℚ) : String := toString (round q)

/-- JS `toFixed(1)` rendering used in interpretation strings (approximate at
negative values, which do not occur). -/
def fmtFixed1 (q : ℚ) : String :=
  let n : ℤ := round (q * 10)
  toString (n / 10) ++ "." ++ toString (n % 10).natAbs

/-- Upper-cased risk level used as the interpretation prefix. -/
def riskUpper : RiskLevel → String
  | .low => "LOW"
  | .medium => "MEDIUM"
  | .high => "HIGH"
  | .critical => "CRITICAL"

/-- Lower-cased risk level (the stored field value). -/
def riskName : RiskLevel → String
  | .low => "low"
  | .medium => "medium"
  | .high => "high"
  | .critical => "critical"

/-- Source `generateAnomalyInterpretation` body for one anomaly. -/
def describeAnomaly (a : AnomalyScoreR) : String :=
  match a.type with
  | .velocity_spike => "rapid reporting increase (" ++ fmtFixed0 a.current ++ " events)"
  | .geographic_convergence => "geographic clustering of " ++ fmtFixed0 a.current ++ " events"
  | .threat_escalation =>
      "threat severity escalating (" ++ fmtFixed1 a.deviation ++ "x baseline)"
  | .source_concentration =>
      "concentrated source reporting (" ++ fmtFixed0 (a.current * 100) ++ "%)"
  | .temporal_anomaly => "unusual timing pattern"
  | .sentiment_shift => "significant sentiment shift detected"
  | .cluster_explosion => "cluster explosion (" ++ fmtFixed1 a.deviation ++ "x normal rate)"

/-- Source `generateAnomalyInterpretation`: empty list gives the fixed
message; otherwise the top 3 anomalies of the (already score-descending)
list are described and prefixed with the upper-cased risk level. -/
def generateAnomalyInterpretation (anomalies : List AnomalyScoreR) (risk : RiskLevel) :
    String :=
  if anomalies.length = 0 then "No anomalies detected."
  else
    riskUpper risk ++ " RISK: " ++
      String.intercalate ", " ((anomalies.take 3).map describeAnomaly) ++ "."

/-- Source `analyzeEventAnomalies` (result value only): run the seven
detectors, average the fired scores (0 when none fired), flag at the
configured threshold, classify at 0.9/0.75/0.5, and store the score rounded
via `parseFloat(toFixed(3))`. The JS `anomalies.sort(...)` inside
interpretation generation mutates the array, so the stored `anomalies` list
is the score-descending sort (JS sort is stable). The `eventHistory` and
`anomalyHistory` pushes and the baseline sample counting are state updates
that do not affect this result and are omitted. -/
noncomputable def analyzeEventAnomalies (baselines : BaselineMap)
    (cfg : AnomalyModelConfig) (now : ℤ) (event : ClusteredEvent)
    (recentEvents : List ClusteredEvent) : EventAnomalies :=
  let allAnomalies := firedAnomalies baselines cfg now event recentEvents
  let overallAnomalyScore : ℚ :=
    if 0 < allAnomalies.length then
      (allAnomalies.map (fun a => a.score)).sum / (allAnomalies.length : ℚ)
    else 0
  let isAnomalous := cfg.anomalyThreshold ≤ overallAnomalyScore
  let riskLevel : RiskLevel :=
    if 0.9 ≤ overallAnomalyScore then .critical
    else if 0.75 ≤ overallAnomalyScore then .high
    else if 0.5 ≤ overallAnomalyScore then .medium
    else .low
  let sorted := jsSortBy (fun a b => b.score < a.score) allAnomalies
  let interpretation := generateAnomalyInterpretation sorted riskLevel
  { eventId := event.id, timestamp := now, anomalies := sorted,
    overallAnomalyScore := roundTo3 overallAnomalyScore,
    isAnomalous := isAnomalous, riskLevel := riskLevel,
    interpretation := interpretation }

/-- Spec-side aggregation: the arithmetic mean of the fired detector scores,
0 when none fired (spec §4.4 "Aggregation"). -/
def anomalyMean (scores : List ℚ) : ℚ :=
  if 0 < scores.length then scores.sum / (scores.length : ℚ) else 0

/-- Spec-side risk banding: ≥0.9 critical, ≥0.75 high, ≥0.5 medium, else
low. -/
def specRiskLevel (overall : ℚ) : RiskLevel :=
  if 0.9 ≤ overall then .critical
  else if 0.75 ≤ overall then .high
  else if 0.5 ≤ overall then .medium
  else .low

/-! Augmentation coordinator (`intelligence-augmentation` service). Only the
batch-level `try`/`catch` contract of `augmentEvents` is claimed; the
successful pipeline (deduplication plus per-event augmentation, with its
satellite and storage effects) is abstracted as an `Except`-valued function
parameter, and the `catch` fallback is embedded from the source. -/

/-- One triggered-alert summary attached to an enriched event. -/
structure TriggeredAlert where
  ruleId : String
  ruleName : String
  highlightColor : Option String
deriving DecidableEq

/-- Source `deduplicationInfo` record. -/
structure DedupInfo where
  isDuplicate : Bool
  mergedFrom : ℕ
deriving DecidableEq

/-- Source escalation-prediction summary. -/
structure EscalationPrediction where
  probability : ℚ
  indicators : List AnomalyType
deriving DecidableEq

/-- The `_augmented` record of an enriched event (the opaque
`satelliteContext` collaborator payload is omitted). -/
structure Augmented where
  triggeredAlerts : List TriggeredAlert
  deduplicationInfo : Option DedupInfo
  anomalies : EventAnomalies
  escalationPrediction : Option EscalationPrediction
deriving DecidableEq

/-- Source `EnrichedEvent`: the original event (`...e` spread) plus its
`_augmented` record. -/
structure EnrichedEvent where
  event : ClusteredEvent
  augmented : Augmented
deriving DecidableEq

/-- The per-event fallback record built in the `catch` branch of
`augmentEvents`. -/
def fallbackEnriched (e : ClusteredEvent) : EnrichedEvent :=
  { event := e,
    augmented :=
      { triggeredAlerts := [],
        deduplicationInfo := some { isDuplicate := false, mergedFrom := 0 },
        anomalies :=
          { eventId := e.id, timestamp := e.firstSeen, anomalies := [],
            overallAnomalyScore := 0, isAnomalous := false, riskLevel := .low,
            interpretation := "Augmentation failed" },
        escalationPrediction := none } }

/-- Source `augmentEvents`: run the augmentation pipeline; if it throws,
fall back to wrapping every ORIGINAL input event in the minimal fallback
record. -/
def augmentEvents (pipeline : List ClusteredEvent → Except String (List EnrichedEvent))
    (events : List ClusteredEvent) : List EnrichedEvent :=
  match pipeline events with
  | .ok enriched => enriched
  | .error _ => events.map fallbackEnriched

/-! Concrete inputs used by counterexamples and witnesses. -/

/-- A minimal event template. -/
def baseEvent (id title : String) (firstSeen : ℤ) : ClusteredEvent :=
  { id := id, primaryTitle := title, primarySource := "", topSources := [],
    sourceCount := 0, lat := none, lon := none, firstSeen := firstSeen,
    lastUpdated := 0, threat := none, velocity := none, allItems := [] }

/-- Two events sharing the id `"x"`, otherwise unrelated (25h apart, so
their pair score is the hard zero). -/
def dupIdA : ClusteredEvent := baseEvent "x" "aaaa" 0

/-- Second event with the duplicated id. -/
def dupIdB : ClusteredEvent := baseEvent "x" "bbbb" 90000000

/-- Distinct-id dissimilar events for witnesses. -/
def wEvA : ClusteredEvent := baseEvent "1" "aaaa" 0

/-- Second witness event. -/
def wEvB : ClusteredEvent := baseEvent "2" "bbbb" 90000000

/-- Source reference of tier 1. -/
def srcA : SourceRef := { name := "a", tier := 1, url := "u" }

/-- Source reference of tier 2. -/
def srcB : SourceRef := { name := "b", tier := 2, url := "u" }

/-- Source reference of tier 3. -/
def srcC : SourceRef := { name := "c", tier := 3, url := "u" }

/-- Source reference of tier 4. -/
def srcD : SourceRef := { name := "d", tier := 4, url := "u" }

/-- Idempotence counterexample, group primary: three of four sources. -/
def c2p1 : ClusteredEvent :=
  { baseEvent "1" "aaaaaaaa" 0 with topSources := [srcA, srcB, srcC], sourceCount := 3 }

/-- Idempotence counterexample, duplicate absorbed by `c2p1` (pair score
0.4·1 + 0.2·(3/4) + 0 + 0.2·1 = 0.75). -/
def c2d1 : ClusteredEvent :=
  { baseEvent "2" "aaaaaaaa" 0 with topSources := [srcA, srcB, srcC, srcD], sourceCount := 4 }

/-- Idempotence counterexample, second primary (pair score against `c2p1` is
0.4·(7/8) + 0.2·(3/4) + 0 + 0.2 = 0.70 < 0.75, but against the merged first
group 0.4·(7/8) + 0.2·1 + 0 + 0.2 = 0.75). -/
def c2p2 : ClusteredEvent :=
  { baseEvent "3" "aaaaaaab" 0 with topSources := [srcA, srcB, srcC, srcD], sourceCount := 4 }

/-- The merged first group of the idempotence counterexample. -/
def c2m1 : ClusteredEvent :=
  { c2p1 with topSources := [srcA, srcB, srcC, srcD], sourceCount := 4 }

/-- Anomaly counterexample event: `sourceCount 2`, a single top source, an
`info` threat of confidence 0.4, last updated 1000 seconds before `now = 0`. -/
def c3ev : ClusteredEvent :=
  { baseEvent "e" "t" (-7200000) with
    primarySource := "s"
    topSources := [{ name := "s", tier := 1, url := "u" }]
    sourceCount := 2
    lastUpdated := -1000000
    threat := some { level := "info", category := none, confidence := some (2/5) } }

/-- Recent-context event for the anomaly counterexample (confidence `c`,
first seen two hours before `now = 0`). -/
def c3recent (id : String) (c : ℚ) : ClusteredEvent :=
  { baseEvent id "t" (-7200000) with
    primarySource := "s"
    topSources := [{ name := "s", tier := 1, url := "u" }]
    sourceCount := 1
    lastUpdated := -7200000
    threat := some { level := "info", category := none, confidence := some c } }

/-- The recent-events context of the anomaly counterexample: only the
sentiment-shift detector fires, with score `|2/5 - (9/10 + 4/5 + 9/10)/3| =
7/15`, whose rounding to three decimals is `467/1000 ≠ 7/15`. -/
def c3ctx : List ClusteredEvent := [c3recent "r1" (9/10), c3recent "r2" (4/5), c3recent "r3" (9/10)]

/-- A score placeholder for hand-built duplicate groups (never read by
`mergeEventGroup`). -/
noncomputable def dummyScore : DeduplicationScore :=
  { titleSimilarity := 0, sourceSimilarity := 0, locationSimilarity := 0,
    timeSimilarity := 0, overallScore := 0 }

/-- Merge counterexample: primary at the falsy coordinates (0, 0). -/
def c7primary : ClusteredEvent := { baseEvent "p" "t" 0 with lat := some 0, lon := some 0 }

/-- Merge counterexample: duplicate at (40, -75). -/
def c7dup : ClusteredEvent := { baseEvent "d" "t" 0 with lat := some 40, lon := some (-75) }

/-- The hand-built group whose merge overwrites the primary's (0, 0). -/
noncomputable def c7group : DuplicateGroup :=
  { primaryEvent := c7primary, duplicates := [(c7dup, dummyScore)] }

/-- Group for the amended-merge witness: a coordinate-less primary and a
duplicate at (40, -75). -/
noncomputable def c7wGroup : DuplicateGroup :=
  { primaryEvent := baseEvent "p" "t" 0, duplicates := [(c7dup, dummyScore)] }

/-- Location counterexample: an event carrying latitude 0 (JS-falsy). -/
def c6ev : ClusteredEvent := { baseEvent "z" "t" 0 with lat := some 0, lon := some 20 }

/-- Events at identical nonzero coordinates for the location witness. -/
def c6wEv : ClusteredEvent := { baseEvent "w" "t" 0 with lat := some 1, lon := some 2 }

/-- A regex implementation on which every pattern is invalid (the `RegExp`
constructor always throws), as with the unbalanced pattern used below. -/
def rxNone : RegexImpl := fun _ _ _ => none

/-- Regex counterexample event: its title contains the invalid pattern text
as a literal substring. -/
def c8ev : ClusteredEvent := baseEvent "k" "foo (bar)" 0

/-- A keyword-type condition carrying the `regex` operator and the invalid
pattern `"("`. -/
def c8cond : AlertRuleCondition :=
  { type := .keyword, operator := .regex, value := .str "(", caseSensitive := none }

/-- A title-type regex condition with the invalid pattern `"("`, for the
amended regex-safety witness. -/
def c8wCond : AlertRuleCondition :=
  { type := .title, operator := .regex, value := .str "(", caseSensitive := none }

/-- Rule for the C5 witness: two `ALL` conditions of which only the first
matches `wEvA` (title `"aaaa"`). -/
def c5rule : AlertRule :=
  { id := "r1", name := "two conditions", description := none, enabled := true,
    conditions :=
      [{ type := .title, operator := .contains, value := .str "aa", caseSensitive := none },
        { type := .title, operator := .contains, value := .str "zz", caseSensitive := none }],
    conditionLogic := .ALL,
    actions := { notify := true, extractToPanel := none, highlightColor := none },
    createdAt := 0, updatedAt := 0, lastTriggered := none, triggerCount := 0 }

/-- A disabled rule whose single condition matches everything. -/
def c5disabled : AlertRule :=
  { c5rule with
    id := "r2"
    enabled := false
    conditions :=
      [{ type := .title, operator := .contains, value := .str "", caseSensitive := none }] }

/-- Engine state for the C5 witness. -/
def c5state : AlertState := [("r1", c5rule), ("r2", c5disabled)]

/-- Rule tracked by the C9 witness. -/
def c9rule : AlertRule :=
  { id := "r1", name := "tracked", description := none, enabled := true, conditions := [],
    conditionLogic := .ALL,
    actions := { notify := true, extractToPanel := none, highlightColor := none },
    createdAt := 0, updatedAt := 0, lastTriggered := none, triggerCount := 0 }

/-- Engine state for the C9 witness. -/
def c9state : AlertState := [("r1", c9rule)]

/-- Operation sequence for the C9 witness: two triggers on `"r1"`
interleaved with a toggle, an unrelated create, an update, a delete of
another rule, an import and a pure evaluation. -/
def c9ops : List EngineOp :=
  [.recordTrigger "r1" 5,
    .toggle "r1" false 6,
    .create "r9" "other" [] .ANY none none 7,
    .update "r1"
      { name := some "renamed", description := none, enabled := none, conditions := none,
        conditionLogic := none, actions := none, lastTriggered := none } 8,
    .evalEvent wEvA,
    .deleteRule "r9",
    .importOps [("r10", c9rule)],
    .recordTrigger "r1" 9]

/-- Event for the C10 witness: two sources counted, one listed. -/
def c10ev : ClusteredEvent :=
  { baseEvent "s" "t" 0 with
    topSources := [{ name := "s", tier := 1, url := "u" }], sourceCount := 2 }

/-- A pipeline that always throws, for the C4 witness. -/
def failingPipeline : List ClusteredEvent → Except String (List EnrichedEvent) :=
  fun _ => .error "deduplication failed"

/-! Theorems. -/

/-- C4: if the augmentation pipeline inside `augmentEvents` throws, the
coordinator returns one enriched event per original input event, in the
original order, each wrapping the unmodified input event with empty
triggered alerts, a zero-score non-anomalous low-risk anomaly record, and
the interpretation "Augmentation failed". -/
theorem c4_augment_fallback
    (pipeline : List ClusteredEvent → Except String (List EnrichedEvent))
    (events : List ClusteredEvent) (err : String) (h : pipeline events = .error err) :
    augmentEvents pipeline events = events.map fallbackEnriched ∧
    (augmentEvents pipeline events).length = events.length ∧
    (augmentEvents pipeline events).map EnrichedEvent.event = events ∧
    ∀ ee ∈ augmentEvents pipeline events,
      ee.augmented.triggeredAlerts = [] ∧
      ee.augmented.anomalies.anomalies = [] ∧
      ee.augmented.anomalies.overallAnomalyScore = 0 ∧
      ee.augmented.anomalies.isAnomalous = false ∧
      ee.augmented.anomalies.riskLevel = .low ∧
      ee.augmented.anomalies.interpretation = "Augmentation failed" := by
  have hbase : augmentEvents pipeline events = events.map fallbackEnriched := by
    unfold augmentEvents
    rw [h]
  refine ⟨hbase, ?_, ?_, ?_⟩
  · rw [hbase, List.length_map]
  · rw [hbase, List.map_map]
    have : EnrichedEvent.event ∘ fallbackEnriched = id := by
      funext e
      rfl
    rw [this, List.map_id]
  · intro ee hee
    rw [hbase, List.mem_map] at hee
    obtain ⟨e, -, rfl⟩ := hee
    exact ⟨rfl, rfl, rfl, rfl, rfl, rfl⟩

/-- Witness for C4 at a concrete failing pipeline and a two-event batch. -/
theorem c4_augment_fallback_witness :
    augmentEvents failingPipeline [wEvA, wEvB] = [wEvA, wEvB].map fallbackEnriched ∧
    (augmentEvents failingPipeline [wEvA, wEvB]).length =
      ([wEvA, wEvB] : List ClusteredEvent).length ∧
    (augmentEvents failingPipeline [wEvA, wEvB]).map EnrichedEvent.event = [wEvA, wEvB] ∧
    ∀ ee ∈ augmentEvents failingPipeline [wEvA, wEvB],
      ee.augmented.triggeredAlerts = [] ∧
      ee.augmented.anomalies.anomalies = [] ∧
      ee.augmented.anomalies.overallAnomalyScore = 0 ∧
      ee.augmented.anomalies.isAnomalous = false ∧
      ee.augmented.anomalies.riskLevel = .low ∧
      ee.augmented.anomalies.interpretation = "Augmentation failed" :=
  c4_augment_fallback failingPipeline [wEvA, wEvB] "deduplication failed" rfl

/-- C5: `evaluateEventAgainstRules` returns exactly the enabled rules in the
engine state whose conditions combine to true under the rule's logic (`ALL`
= every condition, `ANY` = at least one), and evaluation leaves the engine
state unchanged. -/
theorem c5_rule_evaluation (rx : RegexImpl) (s : AlertState) (event : ClusteredEvent)
    (r : AlertRule) :
    (r ∈ evaluateEventAgainstRules rx s event ↔
      r ∈ s.map Prod.snd ∧ r.enabled = true ∧ evaluateEvent rx event r = true) ∧
    (r.conditionLogic = .ALL →
      (evaluateEvent rx event r = true ↔
        ∀ c ∈ r.conditions, evaluateCondition rx event c = true)) ∧
    (r.conditionLogic = .ANY →
      (evaluateEvent rx event r = true ↔
        ∃ c ∈ r.conditions, evaluateCondition rx event c = true)) ∧
    stepOp s (.evalEvent event) = s := by
  refine ⟨?_, ?_, ?_, rfl⟩
  · simp [evaluateEventAgainstRules, List.mem_filter, Bool.and_eq_true, and_assoc]
  · intro hall
    simp [evaluateEvent, hall, List.all_eq_true]
  · intro hany
    simp [evaluateEvent, hany, List.any_eq_true]

/-- Witness for C5: the two-condition `ALL` rule with exactly one matching
condition is not returned, nor is the disabled catch-all rule; the engine
state is untouched by evaluation. -/
theorem c5_rule_evaluation_witness :
    c5rule ∉ evaluateEventAgainstRules rxNone c5state wEvA ∧
    c5disabled ∉ evaluateEventAgainstRules rxNone c5state wEvA ∧
    stepOp c5state (.evalEvent wEvA) = c5state := by
  refine ⟨?_, ?_, (c5_rule_evaluation rxNone c5state wEvA c5rule).2.2.2⟩
  · intro hmem
    have h := ((c5_rule_evaluation rxNone c5state wEvA c5rule).1.mp hmem).2.2
    have hfalse : evaluateEvent rxNone wEvA c5rule = false := by decide
    rw [hfalse] at h
    cases h
  · intro hmem
    have h := ((c5_rule_evaluation rxNone c5state wEvA c5disabled).1.mp hmem).2.1
    have hfalse : c5disabled.enabled = false := by decide
    rw [hfalse] at h
    cases h

/-- C8 counterexample: a condition of type `keyword` whose `operator` field
is `regex` with the invalid pattern `"("` does NOT evaluate to false — the
keyword arm ignores the operator and substring-matches, so an event whose
title contains `"("` evaluates to true. -/
theorem c8_counterexample : ¬ (evaluateCondition rxNone c8ev c8cond = false) := by decide

/-- C8 (amended): for conditions of type `title`, `source` or `velocity` —
the types routed through the string-operator evaluator — the `regex`
operator with a pattern whose compilation throws evaluates to false (the
`try`/`catch` result), and evaluation is total, never propagating an
exception. Conditions of type `keyword`, `threatLevel`, `category` and
`sourceCount` ignore the `regex` operator field entirely (`sourceCount`
yields false; the others compare independently of the operator). -/
theorem c8_regex_safety_amended (rx : RegexImpl) (event : ClusteredEvent)
    (c : AlertRuleCondition) (hop : c.operator = .regex)
    (hty : c.type = .title ∨ c.type = .source ∨ c.type = .velocity)
    (hrx : ∀ p flag input, rx p flag input = none) :
    evaluateCondition rx event c = false := by
  have hstr : ∀ v comp cs, evaluateStringCondition rx v .regex comp cs = false := by
    intro v comp cs
    simp [evaluateStringCondition, hrx]
  rcases hty with hty | hty | hty <;>
    · simp only [evaluateCondition, hty, hop]
      first
        | exact hstr _ _ _
        | cases event.velocity with
          | none => rfl
          | some v => exact hstr _ _ _

/-- Witness for C8 (amended): a title condition with the invalid pattern
`"("` evaluates to false on a concrete event under a regex engine whose
constructor throws on it. -/
theorem c8_regex_safety_amended_witness : evaluateCondition rxNone wEvA c8wCond = false :=
  c8_regex_safety_amended rxNone wEvA c8wCond rfl (Or.inl rfl) (fun _ _ _ => rfl)

/-- The `Math.max` of a non-empty list of constant ones is 1. -/
lemma maxOnes : ∀ l : List SourceRef, l ≠ [] → (l.map (fun _ => (1 : ℚ))).max? = some 1
  | [], h => absurd rfl h
  | _ :: t, _ => by
      rw [List.map_cons]
      cases t with
      | nil => rfl
      | cons b t2 =>
          rw [List.max?_cons, maxOnes (b :: t2) (by simp)]
          simp

/-- C10 (implicit): the source-concentration detector computes its "top
source count" as `Math.max` over a list of constant 1s, so for any event
with at least two counted sources and a non-empty top-source list the
concentration is `1/sourceCount ≤ 1/2` and the detector does not fire;
conversely it can only fire when `sourceCount ≤ 1` (and the top-source list
is non-empty). -/
theorem c10_source_concentration (e : ClusteredEvent) :
    (e.topSources ≠ [] → 2 ≤ e.sourceCount → detectSourceConcentration e = none) ∧
    (detectSourceConcentration e ≠ none → e.sourceCount ≤ 1 ∧ e.topSources ≠ []) := by
  have hnofire : ∀ h2 : 2 ≤ e.sourceCount,
      ¬ ((0.5 : ℚ) < (1 : ℚ) / max (e.sourceCount : ℚ) 1) := by
    intro hsc
    have h2 : (2 : ℚ) ≤ (e.sourceCount : ℚ) := by exact_mod_cast hsc
    have hmaxsc : max (e.sourceCount : ℚ) 1 = (e.sourceCount : ℚ) :=
      max_eq_left (le_trans (by norm_num) h2)
    have hle : (1 : ℚ) / max (e.sourceCount : ℚ) 1 ≤ 1 / 2 := by
      rw [hmaxsc, div_le_div_iff₀ (by linarith) (by norm_num)]
      linarith
    rw [show (0.5 : ℚ) = 1 / 2 by norm_num]
    exact not_lt.mpr hle
  constructor
  · intro hne hsc
    unfold detectSourceConcentration
    rw [maxOnes e.topSources hne]
    dsimp only
    rw [if_neg (hnofire hsc)]
  · intro hfire
    have hne : e.topSources ≠ [] := by
      intro hnil
      apply hfire
      unfold detectSourceConcentration
      rw [hnil]
      rfl
    refine ⟨?_, hne⟩
    by_contra hgt
    push_neg at hgt
    apply hfire
    unfold detectSourceConcentration
    rw [maxOnes e.topSources hne]
    dsimp only
    rw [if_neg (hnofire hgt)]

/-- Witness for C10: the detector returns none on a concrete event with
`sourceCount = 2` and one listed top source. -/
theorem c10_source_concentration_witness : detectSourceConcentration c10ev = none :=
  (c10_source_concentration c10ev).1 (by decide) (by decide)

/-- The haversine distance from a point to itself is 0. -/
lemma haversine_self (la lo : ℚ) : calculateHaversineDistance la lo la lo = 0 := by
  unfold calculateHaversineDistance jsAtan2
  have hz : ((la : ℝ) - (la : ℝ)) * Real.pi / 180 = 0 := by ring
  have hz2 : ((lo : ℝ) - (lo : ℝ)) * Real.pi / 180 = 0 := by ring
  rw [hz, hz2]
  norm_num [Real.sqrt_zero, Real.sqrt_one, Real.arctan_zero]

/-- C6 counterexample: both events carry coordinates (latitude 0, longitude
20), the claim's formula gives `max(0, 1 - 0/50) = 1`, but the code treats
the 0 latitude as falsy and returns 0. -/
theorem c6_counterexample :
    ¬ (calculateLocationSimilarity c6ev c6ev =
        max 0 (1 - calculateHaversineDistance 0 20 0 20 / 50)) := by
  intro h
  have hlhs : calculateLocationSimilarity c6ev c6ev = 0 := by
    unfold calculateLocationSimilarity
    show (if (0 : ℚ) = 0 ∨ _ then _ else _) = _
    rw [if_pos (Or.inl rfl)]
  have hrhs : max 0 (1 - calculateHaversineDistance 0 20 0 20 / 50) = 1 := by
    rw [haversine_self]
    norm_num
  rw [hlhs, hrhs] at h
  exact one_ne_zero h.symm

/-- C6 (amended): location similarity is 0 when either event lacks
coordinates or when any present coordinate equals 0 (JS falsiness of the
guard), and it equals `max(0, 1 - haversine/50)` exactly when both events
carry four nonzero coordinates. -/
theorem c6_location_similarity_amended (e1 e2 : ClusteredEvent) :
    ((e1.lat = none ∨ e1.lon = none ∨ e2.lat = none ∨ e2.lon = none) →
      calculateLocationSimilarity e1 e2 = 0) ∧
    (∀ la1 lo1 la2 lo2,
      e1.lat = some la1 → e1.lon = some lo1 → e2.lat = some la2 → e2.lon = some lo2 →
      ((la1 = 0 ∨ lo1 = 0 ∨ la2 = 0 ∨ lo2 = 0) → calculateLocationSimilarity e1 e2 = 0) ∧
      (la1 ≠ 0 → lo1 ≠ 0 → la2 ≠ 0 → lo2 ≠ 0 →
        calculateLocationSimilarity e1 e2 =
          max 0 (1 - calculateHaversineDistance la1 lo1 la2 lo2 / 50))) := by
  constructor
  · intro h
    unfold calculateLocationSimilarity
    rcases h1 : e1.lat with - | la1 <;> rcases h2 : e1.lon with - | lo1 <;>
      rcases h3 : e2.lat with - | la2 <;> rcases h4 : e2.lon with - | lo2 <;>
      simp_all
  · intro la1 lo1 la2 lo2 h1 h2 h3 h4
    constructor
    · intro hz
      unfold calculateLocationSimilarity
      rw [h1, h2, h3, h4]
      exact if_pos hz
    · intro hn1 hn2 hn3 hn4
      unfold calculateLocationSimilarity
      rw [h1, h2, h3, h4]
      exact if_neg (by push_neg; exact ⟨hn1, hn2, hn3, hn4⟩)

/-- Witness for C6 (amended): a coordinate-less event scores 0 against
anything, and two events at the same nonzero coordinates score
`max(0, 1 - haversine/50)`. -/
theorem c6_location_similarity_amended_witness :
    calculateLocationSimilarity wEvA c6wEv = 0 ∧
    calculateLocationSimilarity c6wEv c6wEv =
      max 0 (1 - calculateHaversineDistance 1 2 1 2 / 50) := by
  constructor
  · exact (c6_location_similarity_amended wEvA c6wEv).1 (Or.inl rfl)
  · exact ((c6_location_similarity_amended c6wEv c6wEv).2 1 2 1 2 rfl rfl rfl rfl).2
      (by norm_num) (by norm_num) (by norm_num) (by norm_num)

/-- C7 counterexample: a primary at the coordinates (0, 0) — present but
JS-falsy — is overwritten by the merge with its duplicate's (40, -75),
contradicting the claim that present coordinates (including the value 0)
are never overwritten. -/
theorem c7_counterexample :
    (mergeEventGroup c7group).lat ≠ c7group.primaryEvent.lat ∧
    (mergeEventGroup c7group).lat = some 40 ∧
    (mergeEventGroup c7group).lon = some (-75) := by
  refine ⟨?_, by decide, by decide⟩
  intro h
  have h2 : (mergeEventGroup c7group).lat = some 40 := by decide
  have h3 : c7group.primaryEvent.lat = some 0 := by decide
  rw [h2, h3] at h
  simp at h

/-- C7 (amended): in a merged duplicate group, when the primary's latitude
and longitude are both JS-falsy (absent or 0) the merged event adopts the
coordinates of the first duplicate whose latitude and longitude are both
truthy; when the primary's latitude or longitude is truthy (present and
nonzero) its coordinates are never overwritten. -/
theorem c7_merge_coordinates_amended (g : DuplicateGroup) :
    (numTruthy g.primaryEvent.lat = false → numTruthy g.primaryEvent.lon = false →
      ∀ d, g.duplicates.find? (fun d => numTruthy d.1.lat && numTruthy d.1.lon) = some d →
        (mergeEventGroup g).lat = d.1.lat ∧ (mergeEventGroup g).lon = d.1.lon) ∧
    ((numTruthy g.primaryEvent.lat = true ∨ numTruthy g.primaryEvent.lon = true) →
      (mergeEventGroup g).lat = g.primaryEvent.lat ∧
      (mergeEventGroup g).lon = g.primaryEvent.lon) := by
  constructor
  · intro hlat hlon d hfind
    have hne : g.duplicates.length ≠ 0 := by
      intro hlen
      rw [List.length_eq_zero] at hlen
      rw [hlen] at hfind
      cases hfind
    have hp := List.find?_some hfind
    have hany : g.duplicates.any (fun d => numTruthy d.1.lat && numTruthy d.1.lon) = true := by
      rw [List.any_eq_true]
      exact ⟨d, List.mem_of_find?_eq_some hfind, hp⟩
    unfold mergeEventGroup
    rw [if_neg hne]
    dsimp only
    rw [hlat, hlon, hany]
    simp only [Bool.not_false, Bool.and_self, if_pos]
    rw [hfind]
    exact ⟨rfl, rfl⟩
  · intro hor
    unfold mergeEventGroup
    by_cases hne : g.duplicates.length = 0
    · rw [if_pos hne]
      exact ⟨rfl, rfl⟩
    · rw [if_neg hne]
      dsimp only
      have hcond : (!numTruthy g.primaryEvent.lat && !numTruthy g.primaryEvent.lon &&
          g.duplicates.any fun d => numTruthy d.1.lat && numTruthy d.1.lon) = false := by
        rcases hor with h | h <;> rw [h] <;> simp
      rw [hcond]
      exact ⟨rfl, rfl⟩

/-- Witness for C7 (amended): a coordinate-less primary adopts its
duplicate's (40, -75); a primary with truthy coordinates keeps them. -/
theorem c7_merge_coordinates_amended_witness :
    (mergeEventGroup c7wGroup).lat = some 40 ∧ (mergeEventGroup c7wGroup).lon = some (-75) := by
  have h := (c7_merge_coordinates_amended c7wGroup).1 rfl rfl (c7dup, dummyScore) rfl
  exact ⟨h.1, h.2⟩

/-- Reading the key just written. -/
lemma mapGet_mapSet_self (s : AlertState) (k : String) (v : AlertRule) :
    mapGet (mapSet s k v) k = some v := by
  induction s with
  | nil => simp [mapSet, mapGet]
  | cons p t ih =>
      by_cases h : p.1 = k
      · simp [mapSet, mapGet, h]
      · simp [mapSet, mapGet, h, ih]

/-- Writing one key does not change another. -/
lemma mapGet_mapSet_ne (s : AlertState) (k i : String) (v : AlertRule) (h : k ≠ i) :
    mapGet (mapSet s k v) i = mapGet s i := by
  induction s with
  | nil => simp [mapSet, mapGet, h]
  | cons p t ih =>
      by_cases hp : p.1 = k
      · simp [mapSet, mapGet, hp, h]
      · simp only [mapSet, mapGet, if_neg hp]
        by_cases hpi : p.1 = i
        · simp [hpi]
        · simp [hpi, ih]

/-- Deleting one key does not change another. -/
lemma mapGet_mapDelete_ne (s : AlertState) (k i : String) (h : k ≠ i) :
    mapGet (mapDelete s k) i = mapGet s i := by
  induction s with
  | nil => rfl
  | cons p t ih =>
      by_cases hp : p.1 = k
      · have hpi : p.1 ≠ i := by rw [hp]; exact h
        simp [mapDelete, mapGet, hp, hpi, h]
      · simp only [mapDelete, mapGet, if_neg hp]
        by_cases hpi : p.1 = i
        · simp [hpi]
        · simp [hpi, ih]

/-- Importing entries whose fresh ids avoid `i` does not change `i`. -/
lemma mapGet_importRules_ne (entries : List (String × AlertRule)) (s : AlertState)
    (i : String) (h : ∀ p ∈ entries, p.1 ≠ i) :
    mapGet (importRules s entries) i = mapGet s i := by
  induction entries generalizing s with
  | nil => rfl
  | cons e rest ih =>
      have key : importRules s (e :: rest) =
          importRules (if e.2.id ≠ "" ∧ e.2.name ≠ "" then mapSet s e.1 { e.2 with id := e.1 }
            else s) rest := rfl
      rw [key, ih _ (fun p hp => h p (List.mem_cons_of_mem e hp))]
      by_cases hv : e.2.id ≠ "" ∧ e.2.name ≠ ""
      · rw [if_pos hv, mapGet_mapSet_ne _ _ _ _ (h e (List.mem_cons_self e rest))]
      · rw [if_neg hv]

/-- Updating an existing rule (also via `toggle`) preserves its id,
`createdAt` and `triggerCount`; recording a trigger on it increments its
`triggerCount` by exactly one; every other safe operation leaves the entry
untouched. -/
lemma stepOp_trigger (s : AlertState) (op : EngineOp) (i : String) (r : AlertRule)
    (hsafe : opSafe i op = true) (hget : mapGet s i = some r) :
    ∃ r2, mapGet (stepOp s op) i = some r2 ∧
      r2.triggerCount = r.triggerCount +
        (if (match op with | .recordTrigger j _ => j == i | _ => false) then 1 else 0) ∧
      r2.id = r.id ∧ r2.createdAt = r.createdAt := by
  cases op with
  | create id name conditions logic description highlightColor now =>
      have hne : id ≠ i := by simpa [opSafe] using hsafe
      refine ⟨r, ?_, by simp, rfl, rfl⟩
      show mapGet (createAlertRule s id name conditions logic description highlightColor now) i
        = some r
      unfold createAlertRule
      rw [mapGet_mapSet_ne _ _ _ _ hne]
      exact hget
  | update id u now =>
      by_cases hid : id = i
      · subst hid
        show ∃ r2, mapGet (updateAlertRule s id u now) id = some r2 ∧ _
        unfold updateAlertRule
        rw [hget]
        refine ⟨_, mapGet_mapSet_self s id _, ?_, ?_, ?_⟩ <;> simp
      · refine ⟨r, ?_, by simp, rfl, rfl⟩
        show mapGet (updateAlertRule s id u now) i = some r
        unfold updateAlertRule
        cases hg : mapGet s id with
        | none => exact hget
        | some rule => rw [mapGet_mapSet_ne _ _ _ _ hid]; exact hget
  | toggle id enabled now =>
      by_cases hid : id = i
      · subst hid
        show ∃ r2, mapGet (toggleAlertRule s id enabled now) id = some r2 ∧ _
        unfold toggleAlertRule updateAlertRule
        rw [hget]
        refine ⟨_, mapGet_mapSet_self s id _, ?_, ?_, ?_⟩ <;> simp
      · refine ⟨r, ?_, by simp, rfl, rfl⟩
        show mapGet (toggleAlertRule s id enabled now) i = some r
        unfold toggleAlertRule updateAlertRule
        cases hg : mapGet s id with
        | none => exact hget
        | some rule => rw [mapGet_mapSet_ne _ _ _ _ hid]; exact hget
  | deleteRule id =>
      have hne : id ≠ i := by simpa [opSafe] using hsafe
      refine ⟨r, ?_, by simp, rfl, rfl⟩
      show mapGet (deleteAlertRule s id) i = some r
      unfold deleteAlertRule
      rw [mapGet_mapDelete_ne _ _ _ hne]
      exact hget
  | evalEvent event => exact ⟨r, hget, by simp, rfl, rfl⟩
  | recordTrigger j now =>
      by_cases hid : j = i
      · subst hid
        show ∃ r2, mapGet (recordAlertTrigger s j now) j = some r2 ∧ _
        unfold recordAlertTrigger
        rw [hget]
        refine ⟨_, mapGet_mapSet_self s j _, ?_, ?_, ?_⟩ <;> simp
      · refine ⟨r, ?_, by simp [hid], rfl, rfl⟩
        show mapGet (recordAlertTrigger s j now) i = some r
        unfold recordAlertTrigger
        cases hg : mapGet s j with
        | none => exact hget
        | some rule => rw [mapGet_mapSet_ne _ _ _ _ hid]; exact hget
  | importOps entries =>
      have hne : ∀ p ∈ entries, p.1 ≠ i := by
        intro p hp
        have hall : entries.all (fun e => e.1 != i) = true := hsafe
        have hp2 := List.all_eq_true.mp hall p hp
        simpa using hp2
      refine ⟨r, ?_, by simp, rfl, rfl⟩
      show mapGet (importRules s entries) i = some r
      rw [mapGet_importRules_ne _ _ _ hne]
      exact hget

/-- Head expansion of the `recordTrigger` counter. -/
lemma countRT_cons (i : String) (op : EngineOp) (rest : List EngineOp) :
    countRT i (op :: rest) = countRT i rest +
      (if (match op with | .recordTrigger j _ => j == i | _ => false) = true
        then 1 else 0) := by
  unfold countRT
  rw [List.countP_cons]

/-- C9: across any sequence of engine operations that never deletes the
tracked rule's id and whose freshly-generated ids (from `create` and
`importRules`) avoid it, the rule's `triggerCount` never decreases; the
final count is the initial count plus exactly the number of
`recordAlertTrigger` calls on that id (each incrementing by exactly 1), so
no other operation (`update`, `toggle`, `delete` of others, `evaluate`,
`import`) changes it — and `update` preserves the rule's id and
`createdAt` as well. -/
theorem c9_trigger_count (ops : List EngineOp) (s : AlertState) (i : String) (r : AlertRule)
    (hsafe : ∀ op ∈ ops, opSafe i op = true) (hget : mapGet s i = some r) :
    ∃ r2, mapGet (runOps s ops) i = some r2 ∧
      r2.triggerCount = r.triggerCount + countRT i ops ∧
      r.triggerCount ≤ r2.triggerCount ∧
      r2.id = r.id ∧ r2.createdAt = r.createdAt := by
  induction ops generalizing s r with
  | nil => exact ⟨r, hget, by simp [countRT], le_refl _, rfl, rfl⟩
  | cons op rest ih =>
      obtain ⟨r1, hget1, hcount1, hid1, hcreated1⟩ :=
        stepOp_trigger s op i r (hsafe op (List.mem_cons_self op rest)) hget
      obtain ⟨r2, hget2, hcount2, hle2, hid2, hcreated2⟩ :=
        ih (stepOp s op) r1 (fun o ho => hsafe o (List.mem_cons_of_mem op ho)) hget1
      refine ⟨r2, hget2, ?_, ?_, hid2.trans hid1, hcreated2.trans hcreated1⟩
      · rw [hcount2, hcount1, countRT_cons]
        generalize (if (match op with | .recordTrigger j _ => j == i | _ => false) = true
          then 1 else 0) = k
        omega
      · exact le_trans (hcount1 ▸ Nat.le_add_right _ _) hle2

/-- Witness for C9: a concrete run with two `recordTrigger "r1"` calls among
toggles, updates, creates, deletes, an import and an evaluation ends with
`triggerCount = 2`, unchanged id and `createdAt`. -/
theorem c9_trigger_count_witness :
    ∃ r2, mapGet (runOps c9state c9ops) "r1" = some r2 ∧
      r2.triggerCount = c9rule.triggerCount + countRT "r1" c9ops ∧
      c9rule.triggerCount ≤ r2.triggerCount ∧
      r2.id = c9rule.id ∧ r2.createdAt = c9rule.createdAt :=
  c9_trigger_count c9ops c9state "r1" c9rule (by decide) (by decide)

/-- The duplicates collected by the inner scan come from the scanned list. -/
lemma collect_fst_sublist (p : ClusteredEvent) :
    ∀ (l : List ClusteredEvent) (pr : List String),
      ((collectDuplicates p l pr).1.map Prod.fst).Sublist l
  | [], _ => by simp [collectDuplicates]
  | e :: rest, pr => by
      simp only [collectDuplicates]
      by_cases he : e.id ∈ pr
      · rw [if_pos he]
        exact (collect_fst_sublist p rest pr).cons e
      · rw [if_neg he]
        by_cases hs : SIMILARITY_THRESHOLD ≤ (calculateSimilarityScore p e).overallScore
        · rw [if_pos hs]
          exact (collect_fst_sublist p rest (e.id :: pr)).cons₂ e
        · rw [if_neg hs]
          exact (collect_fst_sublist p rest pr).cons e

/-- The processed set returned by the inner scan is the input set plus the
ids of the collected duplicates. -/
lemma collect_snd_mem (p : ClusteredEvent) :
    ∀ (l : List ClusteredEvent) (pr : List String) (x : String),
      x ∈ (collectDuplicates p l pr).2 ↔
        x ∈ pr ∨ x ∈ (collectDuplicates p l pr).1.map (fun d => d.1.id)
  | [], pr, x => by simp [collectDuplicates]
  | e :: rest, pr, x => by
      simp only [collectDuplicates]
      by_cases he : e.id ∈ pr
      · rw [if_pos he]
        exact collect_snd_mem p rest pr x
      · rw [if_neg he]
        by_cases hs : SIMILARITY_THRESHOLD ≤ (calculateSimilarityScore p e).overallScore
        · rw [if_pos hs]
          have ih := collect_snd_mem p rest (e.id :: pr) x
          simp only [List.mem_cons] at ih ⊢
          simp only [List.map_cons, List.mem_cons]
          tauto
        · rw [if_neg hs]
          exact collect_snd_mem p rest pr x

/-- Within a list of id-distinct events, the collected duplicates together
with the events whose ids escape the grown processed set are a permutation
of the events whose ids escape the original processed set. -/
lemma collect_perm (p : ClusteredEvent) :
    ∀ (l : List ClusteredEvent) (pr : List String),
      (l.map ClusteredEvent.id).Nodup →
      ((collectDuplicates p l pr).1.map Prod.fst ++
        l.filter (fun e => decide (e.id ∉ (collectDuplicates p l pr).2))).Perm
        (l.filter (fun e => decide (e.id ∉ pr)))
  | [], pr, _ => by simp [collectDuplicates]
  | e :: rest, pr, hnd => by
      have hidrest : e.id ∉ rest.map ClusteredEvent.id := by
        have := hnd
        rw [List.map_cons, List.nodup_cons] at this
        exact this.1
      have hndrest : (rest.map ClusteredEvent.id).Nodup := by
        have := hnd
        rw [List.map_cons, List.nodup_cons] at this
        exact this.2
      simp only [collectDuplicates]
      by_cases he : e.id ∈ pr
      · rw [if_pos he]
        have hin : e.id ∈ (collectDuplicates p rest pr).2 :=
          (collect_snd_mem p rest pr e.id).mpr (Or.inl he)
        rw [List.filter_cons_of_neg (by simpa using hin),
          List.filter_cons_of_neg (by simpa using he)]
        exact collect_perm p rest pr hndrest
      · rw [if_neg he]
        by_cases hs : SIMILARITY_THRESHOLD ≤ (calculateSimilarityScore p e).overallScore
        · rw [if_pos hs]
          have hin : e.id ∈ (collectDuplicates p rest (e.id :: pr)).2 :=
            (collect_snd_mem p rest (e.id :: pr) e.id).mpr (Or.inl (List.mem_cons_self _ _))
          rw [List.filter_cons_of_neg (by simpa using hin),
            List.filter_cons_of_pos (by simpa using he)]
          have hcongr : rest.filter (fun x => decide (x.id ∉ (e.id :: pr))) =
              rest.filter (fun x => decide (x.id ∉ pr)) := by
            apply List.filter_congr
            intro x hx
            have hxe : x.id ≠ e.id := by
              intro hxeq
              exact hidrest (hxeq ▸ List.mem_map_of_mem ClusteredEvent.id hx)
            simp [List.mem_cons, hxe]
          have ih := collect_perm p rest (e.id :: pr) hndrest
          rw [hcongr] at ih
          simpa using ih.cons e
        · rw [if_neg hs]
          have hout : e.id ∉ (collectDuplicates p rest pr).2 := by
            rw [collect_snd_mem p rest pr e.id]
            rintro (hm | hm)
            · exact he hm
            · rw [List.mem_map] at hm
              obtain ⟨d, hd, hdx⟩ := hm
              have hdmem : d.1 ∈ rest :=
                (collect_fst_sublist p rest pr).mem (List.mem_map_of_mem Prod.fst hd)
              exact hidrest (hdx ▸ List.mem_map_of_mem ClusteredEvent.id hdmem)
          rw [List.filter_cons_of_pos (by simpa using hout),
            List.filter_cons_of_pos (by simpa using he)]
          have ih := collect_perm p rest pr hndrest
          exact List.perm_middle.trans (ih.cons e)

/-- The single pass produces at most one group per event. -/
lemma dedupGroups_length_le : ∀ (l : List ClusteredEvent) (pr : List String),
    (dedupGroups l pr).length ≤ l.length
  | [], _ => by simp [dedupGroups]
  | e :: rest, pr => by
      simp only [dedupGroups]
      by_cases he : e.id ∈ pr
      · rw [if_pos he]
        exact le_trans (dedupGroups_length_le rest pr) (Nat.le_succ _)
      · rw [if_neg he]
        simpa using dedupGroups_length_le rest _

/-- The group primaries appear in input order (a sublist of the input). -/
lemma dedupGroups_primaries_sublist : ∀ (l : List ClusteredEvent) (pr : List String),
    ((dedupGroups l pr).map DuplicateGroup.primaryEvent).Sublist l
  | [], _ => by simp [dedupGroups]
  | e :: rest, pr => by
      simp only [dedupGroups]
      by_cases he : e.id ∈ pr
      · rw [if_pos he]
        exact (dedupGroups_primaries_sublist rest pr).cons e
      · rw [if_neg he]
        simpa using (dedupGroups_primaries_sublist rest _).cons₂ e

/-- Grouping over id-distinct events distributes them exactly: the groups'
members are a permutation of the not-yet-processed input events. -/
lemma dedupGroups_perm : ∀ (l : List ClusteredEvent) (pr : List String),
    (l.map ClusteredEvent.id).Nodup →
    ((dedupGroups l pr).flatMap groupMembers).Perm
      (l.filter (fun e => decide (e.id ∉ pr)))
  | [], pr, _ => by simp [dedupGroups]
  | e :: rest, pr, hnd => by
      have hidrest : e.id ∉ rest.map ClusteredEvent.id := by
        have := hnd
        rw [List.map_cons, List.nodup_cons] at this
        exact this.1
      have hndrest : (rest.map ClusteredEvent.id).Nodup := by
        have := hnd
        rw [List.map_cons, List.nodup_cons] at this
        exact this.2
      simp only [dedupGroups]
      by_cases he : e.id ∈ pr
      · rw [if_pos he, List.filter_cons_of_neg (by simpa using he)]
        exact dedupGroups_perm rest pr hndrest
      · rw [if_neg he, List.filter_cons_of_pos (by simpa using he), List.flatMap_cons]
        have ih := dedupGroups_perm rest (e.id :: (collectDuplicates e rest pr).2) hndrest
        have hcongr : rest.filter
              (fun x => decide (x.id ∉ (e.id :: (collectDuplicates e rest pr).2))) =
            rest.filter (fun x => decide (x.id ∉ (collectDuplicates e rest pr).2)) := by
          apply List.filter_congr
          intro x hx
          have hxe : x.id ≠ e.id := by
            intro hxeq
            exact hidrest (hxeq ▸ List.mem_map_of_mem ClusteredEvent.id hx)
          simp [List.mem_cons, hxe]
        rw [hcongr] at ih
        have hgm : groupMembers { primaryEvent := e, duplicates := (collectDuplicates e rest pr).1 } =
            e :: (collectDuplicates e rest pr).1.map (fun d => d.1) := rfl
        rw [hgm, List.cons_append]
        exact ((List.Perm.append_left _ ih).trans (collect_perm e rest pr hndrest)).cons e

/-- Merging a singleton group returns its primary unchanged. -/
lemma mergeEventGroup_singleton (e : ClusteredEvent) :
    mergeEventGroup { primaryEvent := e, duplicates := [] } = e := rfl

/-- `deduplicateEvents` always returns the merged groups (the short-batch
shortcut only skips statistics, and on batches of length 0 or 1 the merged
groups coincide with the input). -/
lemma deduplicateEvents_eq_map_merge (l : List ClusteredEvent) :
    deduplicateEvents l = (dedupGroups l []).map mergeEventGroup := by
  unfold deduplicateEvents
  by_cases h : l.length < 2
  · rw [if_pos h]
    match l, h with
    | [], _ => rfl
    | [e], _ =>
        show [e] = (dedupGroups [e] []).map mergeEventGroup
        have : dedupGroups [e] [] = [{ primaryEvent := e, duplicates := [] }] := by
          simp [dedupGroups, collectDuplicates]
        rw [this, List.map_cons, mergeEventGroup_singleton, List.map_nil]
    | _ :: _ :: _, h => exact absurd h (by simp)
  · rw [if_neg h]

/-- C1 counterexample: two events sharing an id. The second is silently
dropped: the pass yields a single singleton group, so the group sizes sum
to 1, not to the input length 2, and the second event is in no group. -/
theorem c1_counterexample :
    ((dedupGroups [dupIdA, dupIdB] []).map (fun g => 1 + g.duplicates.length)).sum ≠
      ([dupIdA, dupIdB] : List ClusteredEvent).length := by
  have hns : ¬ SIMILARITY_THRESHOLD ≤ (calculateSimilarityScore dupIdA dupIdB).overallScore := by
    have hscore : (calculateSimilarityScore dupIdA dupIdB).overallScore = 0 := by
      unfold calculateSimilarityScore
      rw [if_pos (by decide)]
    rw [hscore]
    norm_num [SIMILARITY_THRESHOLD]
  have hc : collectDuplicates dupIdA [dupIdB] [] = ([], []) := by
    simp only [collectDuplicates]
    rw [if_neg (by simp), if_neg hns]
  have hgroups : dedupGroups [dupIdA, dupIdB] [] =
      [{ primaryEvent := dupIdA, duplicates := [] }] := by
    simp only [dedupGroups]
    rw [if_neg (by simp), hc]
    rw [if_pos (by decide : dupIdB.id ∈ [dupIdA.id])]
  rw [hgroups]
  simp

/-- C1 (amended): for every batch whose event ids are pairwise distinct,
`deduplicateEvents` returns the merged groups of its single pass; there are
at most as many output events as input events, the group sizes sum to the
input length, every input event lies in exactly one group, and the group
primaries (hence the output events) appear in the relative input order in
which they were first encountered. Without the distinct-id hypothesis an
event whose id was already processed is dropped (see the counterexample). -/
theorem c1_dedup_coverage_amended (events : List ClusteredEvent)
    (hnd : (events.map ClusteredEvent.id).Nodup) :
    (deduplicateEvents events).length ≤ events.length ∧
    deduplicateEvents events = (dedupGroups events []).map mergeEventGroup ∧
    ((dedupGroups events []).map (fun g => 1 + g.duplicates.length)).sum = events.length ∧
    (∀ e ∈ events, ((dedupGroups events []).flatMap groupMembers).count e = 1) ∧
    ((dedupGroups events []).map DuplicateGroup.primaryEvent).Sublist events := by
  have hperm := dedupGroups_perm events [] hnd
  have hfilter : events.filter (fun e => decide (e.id ∉ ([] : List String))) = events := by
    rw [List.filter_eq_self]
    intro a _
    simp
  rw [hfilter] at hperm
  refine ⟨?_, deduplicateEvents_eq_map_merge events, ?_, ?_,
    dedupGroups_primaries_sublist events []⟩
  · rw [deduplicateEvents_eq_map_merge events, List.length_map]
    exact dedupGroups_length_le events []
  · have hlen := hperm.length_eq
    rw [List.length_flatMap] at hlen
    rw [← hlen]
    congr 1
    apply List.map_congr_left
    intro g _
    simp [groupMembers, Nat.add_comm]
  · intro e he
    rw [hperm.count_eq]
    exact List.count_eq_one_of_mem (List.Nodup.of_map _ hnd) he

/-- The title distance of the counterexample events is 0. -/
lemma c3_lev : levenshteinDistance "t" "t" = 0 := by decide

/-- Velocity detector on the counterexample: the `normal` label's base
severity 0.1 is under the 0.5 gate. -/
lemma c3_vel : detectVelocityAnomaly [] DEFAULT_CONFIG 0 c3ev c3ctx = none := by
  norm_num [detectVelocityAnomaly, c3ev, baseEvent]
  intro h
  rw [if_neg (by decide : ¬ ("normal" : String) = "spike"),
    if_neg (by decide : ¬ ("normal" : String) = "elevated")] at h
  norm_num at h

/-- Geographic detector on the counterexample: no coordinates. -/
lemma c3_geo : detectGeographicConvergence [] DEFAULT_CONFIG 0 c3ev c3ctx = none := rfl

/-- Threat-escalation detector on the counterexample: all four events are
`info`, so the escalation ratio is 1, under the 1.5 threshold. -/
lemma c3_threat : detectThreatEscalation DEFAULT_CONFIG 0 c3ev c3ctx = none := by
  unfold detectThreatEscalation
  rw [show c3ev.threat =
    some { level := "info", category := none, confidence := some (2 / 5) } from rfl]
  dsimp only
  rw [if_neg (by decide : ¬ ("info" : String) = "")]
  rw [show List.filter (fun e => decide ((0 : ℤ) - 24 * 60 * 60 * 1000 < e.firstSeen) &&
    decide (levenshteinDistance e.primaryTitle c3ev.primaryTitle < 15)) c3ctx = c3ctx from rfl]
  rw [if_neg (by decide : ¬ c3ctx.length < 2)]
  rw [show c3ctx.map (fun e => threatPriority (threatLevelOrInfo e)) = [1, 1, 1] from rfl]
  rw [show threatPriority "info" = 1 from rfl]
  rw [show c3ctx.length = 3 from rfl]
  norm_num [DEFAULT_CONFIG, max_def]

/-- Source-concentration detector on the counterexample: `1/2` is not above
the `0.5` gate. -/
lemma c3_src : detectSourceConcentration c3ev = none := by
  unfold detectSourceConcentration
  rw [maxOnes c3ev.topSources (by decide)]
  dsimp only
  rw [if_neg (by norm_num [c3ev, baseEvent, max_def])]

/-- Temporal detector on the counterexample: the last update is a full
1000 seconds old. -/
lemma c3_temp : detectTemporalAnomaly 0 c3ev = none := rfl

/-- Sentiment detector on the counterexample: the three context confidences
average `13/15` against the event's `2/5`, a shift of `7/15 > 0.3`. -/
lemma c3_sent : detectSentimentShift c3ev c3ctx =
    some
      { type := .sentiment_shift, score := 7 / 15, likelihood := 0.7, baseline := 13 / 15,
        current := 2 / 5, deviation := 7 / 15 } := by
  have habs : |(2 / 5 : ℚ) - 13 / 15| = 7 / 15 := by
    rw [abs_sub_comm, abs_of_nonneg (by norm_num)]
    norm_num
  have hp : ∀ e ∈ c3ctx, (e.threat.isSome && decide ((0.7 : ℚ) < 1 -
      (levenshteinDistance e.primaryTitle c3ev.primaryTitle : ℚ) / 100)) = true := by
    intro e he
    rw [show c3ctx = [c3recent "r1" (9 / 10), c3recent "r2" (4 / 5),
      c3recent "r3" (9 / 10)] from rfl] at he
    simp only [List.mem_cons, List.not_mem_nil, or_false] at he
    rcases he with rfl | rfl | rfl <;>
      · refine (Bool.and_eq_true _ _).mpr ⟨rfl, decide_eq_true ?_⟩
        rw [show levenshteinDistance (c3recent _ _).primaryTitle c3ev.primaryTitle = 0
          from rfl]
        norm_num
  unfold detectSentimentShift
  rw [List.filter_eq_self.mpr hp]
  rw [if_neg (by decide : ¬ c3ctx.length < 2)]
  have h1 : confidenceOrHalf (c3recent "r1" (9 / 10)) = 9 / 10 := by
    show (if (9 / 10 : ℚ) = 0 then 0.5 else 9 / 10) = 9 / 10
    rw [if_neg (by norm_num)]
  have h2 : confidenceOrHalf (c3recent "r2" (4 / 5)) = 4 / 5 := by
    show (if (4 / 5 : ℚ) = 0 then 0.5 else 4 / 5) = 4 / 5
    rw [if_neg (by norm_num)]
  have h3 : confidenceOrHalf (c3recent "r3" (9 / 10)) = 9 / 10 := by
    show (if (9 / 10 : ℚ) = 0 then 0.5 else 9 / 10) = 9 / 10
    rw [if_neg (by norm_num)]
  have hcur : confidenceOrHalf c3ev = 2 / 5 := by
    show (if (2 / 5 : ℚ) = 0 then 0.5 else 2 / 5) = 2 / 5
    rw [if_neg (by norm_num)]
  rw [show c3ctx = [c3recent "r1" (9 / 10), c3recent "r2" (4 / 5),
    c3recent "r3" (9 / 10)] from rfl]
  rw [List.map_cons, List.map_cons, List.map_cons, List.map_nil, h1, h2, h3, hcur]
  have habs2 : |(7 / 15 : ℚ)| = 7 / 15 := abs_of_nonneg (by norm_num)
  norm_num [habs, habs2]

/-- Cluster detector on the counterexample: no event within the last hour. -/
lemma c3_clu : detectClusterExplosion 0 c3ctx = none := by
  unfold detectClusterExplosion
  dsimp only
  rw [show List.filter (fun e => decide ((0 : ℤ) - 60 * 60 * 1000 < e.firstSeen)) c3ctx = []
    from rfl]
  rw [show List.filter (fun e => decide ((0 : ℤ) - 6 * 60 * 60 * 1000 < e.firstSeen)) c3ctx =
    c3ctx from rfl]
  rw [show c3ctx.length = 3 from rfl]
  norm_num [max_def]

/-- On the counterexample input only the sentiment-shift detector fires,
with score `|2/5 - 13/15| = 7/15`. -/
lemma c3_fired :
    firedAnomalies [] DEFAULT_CONFIG 0 c3ev c3ctx =
      [{ type := .sentiment_shift, score := 7 / 15, likelihood := 0.7, baseline := 13 / 15,
          current := 2 / 5, deviation := 7 / 15 }] := by
  unfold firedAnomalies
  rw [c3_vel, c3_geo, c3_threat, c3_src, c3_temp, c3_sent, c3_clu]
  rfl

/-- C3 counterexample: on a concrete event whose only fired detector is a
sentiment shift of score 7/15, the stored `overallAnomalyScore` is the
three-decimal rounding `467/1000` of the mean, not the arithmetic mean
`7/15` itself, so the overall score field is not exactly the mean of the
fired detector scores. -/
theorem c3_counterexample :
    (analyzeEventAnomalies [] DEFAULT_CONFIG 0 c3ev c3ctx).overallAnomalyScore ≠
      anomalyMean ((firedAnomalies [] DEFAULT_CONFIG 0 c3ev c3ctx).map AnomalyScoreR.score) := by
  unfold analyzeEventAnomalies
  rw [c3_fired]
  norm_num [anomalyMean, roundTo3, round_eq]

/-- C3 (amended): `analyzeEventAnomalies` computes the arithmetic mean of
exactly the fired detectors' scores (0 when none fired), stores it rounded
to three decimals (`parseFloat(mean.toFixed(3))`), and derives
`isAnomalous` (mean ≥ `anomalyThreshold`, default 0.7) and the risk level
(≥0.9 critical, ≥0.75 high, ≥0.5 medium, else low) from the UNROUNDED
mean; in particular a mean of 0.95 classifies critical and 0.6 classifies
medium. -/
theorem c3_aggregation_amended (baselines : BaselineMap) (cfg : AnomalyModelConfig)
    (now : ℤ) (event : ClusteredEvent) (recentEvents : List ClusteredEvent) :
    (analyzeEventAnomalies baselines cfg now event recentEvents).overallAnomalyScore =
      roundTo3 (anomalyMean ((firedAnomalies baselines cfg now event recentEvents).map
        AnomalyScoreR.score)) ∧
    (analyzeEventAnomalies baselines cfg now event recentEvents).isAnomalous =
      decide (cfg.anomalyThreshold ≤
        anomalyMean ((firedAnomalies baselines cfg now event recentEvents).map
          AnomalyScoreR.score)) ∧
    (analyzeEventAnomalies baselines cfg now event recentEvents).riskLevel =
      specRiskLevel (anomalyMean ((firedAnomalies baselines cfg now event recentEvents).map
        AnomalyScoreR.score)) ∧
    DEFAULT_CONFIG.anomalyThreshold = 0.7 ∧
    specRiskLevel 0.95 = .critical ∧ specRiskLevel 0.6 = .medium := by
  have hmean : anomalyMean ((firedAnomalies baselines cfg now event recentEvents).map
      AnomalyScoreR.score) =
      (if 0 < (firedAnomalies baselines cfg now event recentEvents).length then
        ((firedAnomalies baselines cfg now event recentEvents).map AnomalyScoreR.score).sum /
          ((firedAnomalies baselines cfg now event recentEvents).length : ℚ)
      else 0) := by
    unfold anomalyMean
    rw [List.length_map]
  refine ⟨?_, ?_, ?_, by norm_num [DEFAULT_CONFIG], by norm_num [specRiskLevel],
    by norm_num [specRiskLevel]⟩ <;> (rw [hmean]; rfl)

/-- Evaluation helper: Jaccard source similarity with decided cardinals. -/
lemma sourceSim_eval (s1 s2 : List SourceRef) (a b : ℕ)
    (h1 : ¬ (s1.length = 0 ∨ s2.length = 0))
    (ha : ((s1.map (fun s => jsToLower s.name)).dedup.filter
      (fun x => x ∈ (s2.map (fun s => jsToLower s.name)).dedup)).length = a)
    (hb : (((s1.map (fun s => jsToLower s.name)).dedup ++
      (s2.map (fun s => jsToLower s.name)).dedup).dedup).length = b)
    (hbne : b ≠ 0) :
    calculateSourceSimilarity s1 s2 = (a : ℝ) / (b : ℝ) := by
  unfold calculateSourceSimilarity
  rw [if_neg h1]
  dsimp only
  rw [ha, hb, if_neg hbne]

/-- Evaluation helper: title similarity of equal lower-cased titles. -/
lemma stringSim_eq (s1 s2 : String) (h : jsToLower s1 = jsToLower s2) :
    calculateStringSimilarity s1 s2 = 1 := by
  unfold calculateStringSimilarity
  rw [if_pos h]

/-- Evaluation helper: title similarity with decided distance and length. -/
lemma stringSim_eval (s1 s2 : String) (d m : ℕ) (hne : ¬ jsToLower s1 = jsToLower s2)
    (hd : levenshteinDistance (jsToLower s1) (jsToLower s2) = d)
    (hm : max (jsToLower s1).length (jsToLower s2).length = m) :
    calculateStringSimilarity s1 s2 = 1 - (d : ℝ) / (m : ℝ) := by
  unfold calculateStringSimilarity
  rw [if_neg hne]
  rw [hd, hm]

/-- Evaluation helper: the similarity score of two same-instant events with
the four sub-scores given. -/
lemma score_eval (x y : ClusteredEvent) (hts : ¬ TIME_WINDOW_MS < |x.firstSeen - y.firstSeen|)
    (t s l : ℝ) (ht : calculateStringSimilarity x.primaryTitle y.primaryTitle = t)
    (hs : calculateSourceSimilarity x.topSources y.topSources = s)
    (hl : calculateLocationSimilarity x y = l) :
    (calculateSimilarityScore x y).overallScore =
      t * 0.4 + s * 0.2 + l * 0.2 +
        (1 - min ((|x.firstSeen - y.firstSeen| : ℤ) / (TIME_WINDOW_MS : ℤ) : ℝ) 1) * 0.2 := by
  unfold calculateSimilarityScore
  rw [if_neg hts]
  dsimp only
  rw [ht, hs, hl]

/-- The pair (`c2p1`, `c2d1`) scores exactly the 0.75 threshold. -/
lemma score_p1_d1 : (calculateSimilarityScore c2p1 c2d1).overallScore = 3 / 4 := by
  rw [score_eval c2p1 c2d1 (by decide) 1 (3 / 4) 0
    (stringSim_eq _ _ (by decide))
    (by
      rw [sourceSim_eval c2p1.topSources c2d1.topSources 3 4
        (by decide) (by decide) (by decide) (by decide)]
      norm_num)
    rfl]
  have h0 : (|c2p1.firstSeen - c2d1.firstSeen| : ℤ) = 0 := by decide
  rw [h0]
  norm_num

/-- The pair (`c2p1`, `c2p2`) scores 0.70, under the threshold. -/
lemma score_p1_p2 : (calculateSimilarityScore c2p1 c2p2).overallScore = 7 / 10 := by
  rw [score_eval c2p1 c2p2 (by decide) (1 - 1 / 8) (3 / 4) 0
    (by
      rw [stringSim_eval c2p1.primaryTitle c2p2.primaryTitle 1 8
        (by decide) (by decide) (by decide)]
      norm_num)
    (by
      rw [sourceSim_eval c2p1.topSources c2p2.topSources 3 4
        (by decide) (by decide) (by decide) (by decide)]
      norm_num)
    rfl]
  have h0 : (|c2p1.firstSeen - c2p2.firstSeen| : ℤ) = 0 := by decide
  rw [h0]
  norm_num

/-- The merged first group scores exactly the threshold against `c2p2`. -/
lemma score_m1_p2 : (calculateSimilarityScore c2m1 c2p2).overallScore = 3 / 4 := by
  rw [score_eval c2m1 c2p2 (by decide) (1 - 1 / 8) 1 0
    (by
      rw [stringSim_eval c2m1.primaryTitle c2p2.primaryTitle 1 8
        (by decide) (by decide) (by decide)]
      norm_num)
    (by
      rw [sourceSim_eval c2m1.topSources c2p2.topSources 4 4
        (by decide) (by decide) (by decide) (by decide)]
      norm_num)
    rfl]
  have h0 : (|c2m1.firstSeen - c2p2.firstSeen| : ℤ) = 0 := by decide
  rw [h0]
  norm_num

/-- First pass over the idempotence counterexample batch: `c2d1` joins
`c2p1`'s group and `c2p2` stays separate. -/
lemma dedup_c2_once :
    deduplicateEvents [c2p1, c2d1, c2p2] = [c2m1, c2p2] := by
  have hth : SIMILARITY_THRESHOLD ≤ (calculateSimilarityScore c2p1 c2d1).overallScore := by
    rw [score_p1_d1]
    norm_num [SIMILARITY_THRESHOLD]
  have hlow : ¬ SIMILARITY_THRESHOLD ≤ (calculateSimilarityScore c2p1 c2p2).overallScore := by
    rw [score_p1_p2]
    norm_num [SIMILARITY_THRESHOLD]
  have hc : collectDuplicates c2p1 [c2d1, c2p2] [] =
      ([(c2d1, calculateSimilarityScore c2p1 c2d1)], [c2d1.id]) := by
    simp only [collectDuplicates]
    rw [if_neg (by simp), if_pos hth, if_neg (by decide), if_neg hlow]
  have hgroups : dedupGroups [c2p1, c2d1, c2p2] [] =
      [{ primaryEvent := c2p1, duplicates := [(c2d1, calculateSimilarityScore c2p1 c2d1)] },
        { primaryEvent := c2p2, duplicates := [] }] := by
    simp only [dedupGroups]
    rw [if_neg (by simp), hc]
    rw [if_pos (by decide : c2d1.id ∈ [c2p1.id, c2d1.id])]
    rw [if_neg (by decide : ¬ c2p2.id ∈ [c2p1.id, c2d1.id])]
    rfl
  unfold deduplicateEvents
  rw [if_neg (by decide), hgroups]
  rw [List.map_cons, List.map_cons, List.map_nil, mergeEventGroup_singleton]
  have hm : mergeEventGroup
      { primaryEvent := c2p1, duplicates := [(c2d1, calculateSimilarityScore c2p1 c2d1)] } =
      c2m1 := by decide
  rw [hm]

/-- Second pass: the merged event and `c2p2` now reach the threshold and
collapse into one event. -/
lemma dedup_c2_twice_len : (deduplicateEvents [c2m1, c2p2]).length = 1 := by
  have hth : SIMILARITY_THRESHOLD ≤ (calculateSimilarityScore c2m1 c2p2).overallScore := by
    rw [score_m1_p2]
    norm_num [SIMILARITY_THRESHOLD]
  have hc : collectDuplicates c2m1 [c2p2] [] =
      ([(c2p2, calculateSimilarityScore c2m1 c2p2)], [c2p2.id]) := by
    simp only [collectDuplicates]
    rw [if_neg (by simp), if_pos hth]
  have hgroups : dedupGroups [c2m1, c2p2] [] =
      [{ primaryEvent := c2m1, duplicates := [(c2p2, calculateSimilarityScore c2m1 c2p2)] }] := by
    simp only [dedupGroups]
    rw [if_neg (by simp), hc]
    rw [if_pos (by decide : c2p2.id ∈ [c2m1.id, c2p2.id])]
  unfold deduplicateEvents
  rw [if_neg (by decide), hgroups]
  rfl

/-- C2 counterexample: deduplication is not idempotent. On the concrete
batch `[c2p1, c2d1, c2p2]` the first pass returns two events, but merging
raised the merged event's source overlap with `c2p2` to the threshold, so a
second pass merges again and returns one event. -/
theorem c2_counterexample :
    deduplicateEvents (deduplicateEvents [c2p1, c2d1, c2p2]) ≠
      deduplicateEvents [c2p1, c2d1, c2p2] := by
  rw [dedup_c2_once]
  intro h
  have hlen := congrArg List.length h
  rw [dedup_c2_twice_len] at hlen
  simp at hlen

/-- The inner scan collects nothing when every pair stays under the
threshold. -/
lemma collect_all_low (p : ClusteredEvent) :
    ∀ (l : List ClusteredEvent) (pr : List String),
      (∀ e ∈ l, ¬ SIMILARITY_THRESHOLD ≤ (calculateSimilarityScore p e).overallScore) →
      collectDuplicates p l pr = ([], pr)
  | [], _, _ => rfl
  | e :: rest, pr, h => by
      simp only [collectDuplicates]
      by_cases he : e.id ∈ pr
      · rw [if_pos he]
        exact collect_all_low p rest pr (fun x hx => h x (List.mem_cons_of_mem e hx))
      · rw [if_neg he, if_neg (h e (List.mem_cons_self e rest))]
        exact collect_all_low p rest pr (fun x hx => h x (List.mem_cons_of_mem e hx))

/-- When no distinct pair reaches the threshold and ids are distinct, the
pass produces only singleton groups, in order. -/
lemma dedupGroups_all_low :
    ∀ (l : List ClusteredEvent) (pr : List String),
      (∀ e1 ∈ l, ∀ e2 ∈ l, e1 ≠ e2 →
        ¬ SIMILARITY_THRESHOLD ≤ (calculateSimilarityScore e1 e2).overallScore) →
      (l.map ClusteredEvent.id).Nodup →
      (∀ e ∈ l, e.id ∉ pr) →
      dedupGroups l pr = l.map (fun e => { primaryEvent := e, duplicates := [] })
  | [], _, _, _, _ => rfl
  | e :: rest, pr, hlow, hnd, hpr => by
      have hidrest : e.id ∉ rest.map ClusteredEvent.id := by
        have := hnd
        rw [List.map_cons, List.nodup_cons] at this
        exact this.1
      have hndrest : (rest.map ClusteredEvent.id).Nodup := by
        have := hnd
        rw [List.map_cons, List.nodup_cons] at this
        exact this.2
      simp only [dedupGroups]
      rw [if_neg (hpr e (List.mem_cons_self e rest))]
      have hc : collectDuplicates e rest pr = ([], pr) := by
        apply collect_all_low
        intro x hx
        refine hlow e (List.mem_cons_self e rest) x (List.mem_cons_of_mem e hx) ?_
        intro hex
        exact hidrest (hex ▸ List.mem_map_of_mem ClusteredEvent.id hx)
      rw [hc]
      rw [List.map_cons]
      congr 1
      apply dedupGroups_all_low rest (e.id :: pr)
        (fun x hx y hy => hlow x (List.mem_cons_of_mem e hx) y (List.mem_cons_of_mem e hy))
        hndrest
      intro x hx
      rw [List.mem_cons]
      rintro (hxe | hxpr)
      · exact hidrest (hxe ▸ List.mem_map_of_mem ClusteredEvent.id hx)
      · exact hpr x (List.mem_cons_of_mem e hx) hxpr

/-- C2 (amended): deduplication is idempotent on every batch with pairwise
distinct ids in which no two distinct events reach the similarity
threshold — the pass is then the identity, so re-running changes nothing.
In general idempotence fails, because merging enlarges an event's source
set (and can adopt coordinates), which can raise a pair score across the
threshold on the second pass (see the counterexample). -/
theorem c2_dedup_idempotent_amended (events : List ClusteredEvent)
    (hnd : (events.map ClusteredEvent.id).Nodup)
    (hlow : ∀ e1 ∈ events, ∀ e2 ∈ events, e1 ≠ e2 →
      ¬ SIMILARITY_THRESHOLD ≤ (calculateSimilarityScore e1 e2).overallScore) :
    deduplicateEvents (deduplicateEvents events) = deduplicateEvents events := by
  have hfix : deduplicateEvents events = events := by
    rw [deduplicateEvents_eq_map_merge,
      dedupGroups_all_low events [] hlow hnd (by simp), List.map_map]
    have : (mergeEventGroup ∘ fun e => { primaryEvent := e, duplicates := [] }) =
        fun e : ClusteredEvent => e := by
      funext e
      exact mergeEventGroup_singleton e
    rw [this, List.map_id']
  rw [hfix]
  exact hfix

/-- Witness for C2 (amended): two distinct-id events 25 hours apart (pair
score hard-zeroed by the time window) deduplicate idempotently. -/
theorem c2_dedup_idempotent_amended_witness :
    deduplicateEvents (deduplicateEvents [wEvA, wEvB]) = deduplicateEvents [wEvA, wEvB] := by
  apply c2_dedup_idempotent_amended [wEvA, wEvB] (by decide)
  have hz : ∀ x y : ClusteredEvent, TIME_WINDOW_MS < |x.firstSeen - y.firstSeen| →
      ¬ SIMILARITY_THRESHOLD ≤ (calculateSimilarityScore x y).overallScore := by
    intro x y hxy
    unfold calculateSimilarityScore
    rw [if_pos hxy]
    norm_num [SIMILARITY_THRESHOLD]
  intro e1 h1 e2 h2 hne
  fin_cases h1 <;> fin_cases h2
  · exact absurd rfl hne
  · exact hz wEvA wEvB (by decide)
  · exact hz wEvB wEvA (by decide)
  · exact absurd rfl hne

/-- Witness for C1 (amended) on a concrete distinct-id two-event batch. -/
theorem c1_dedup_coverage_amended_witness :
    (deduplicateEvents [wEvA, wEvB]).length ≤ ([wEvA, wEvB] : List ClusteredEvent).length ∧
    deduplicateEvents [wEvA, wEvB] = (dedupGroups [wEvA, wEvB] []).map mergeEventGroup ∧
    ((dedupGroups [wEvA, wEvB] []).map (fun g => 1 + g.duplicates.length)).sum =
      ([wEvA, wEvB] : List ClusteredEvent).length ∧
    (∀ e ∈ ([wEvA, wEvB] : List ClusteredEvent),
      ((dedupGroups [wEvA, wEvB] []).flatMap groupMembers).count e = 1) ∧
    ((dedupGroups [wEvA, wEvB] []).map DuplicateGroup.primaryEvent).Sublist [wEvA, wEvB] :=
  c1_dedup_coverage_amended [wEvA, wEvB] (by decide)

end WorldEye
